import Mathlib

/-!
Verification development for the git-forge provider normalization layer.

The TypeScript adapters (GitHub, GitLab, Azure DevOps) are shallowly embedded:
each native SDK client is modelled as a structure of response functions (the
"backend"), each adapter operation as a pure Lean function from that backend
and its inputs to a pair of the normalized result (`Except ForgeError _`) and
the ordered list of backend calls the operation issued before finishing.
JavaScript strings become `String`, numbers become `Int`, nullable/optional
fields become `Option`, `Date` values (and the parse of ISO date strings by
the `Date` constructor, owned by the JS runtime) collapse to an abstract
millisecond timestamp `DateTime`, and the ambient clock read by `new Date()`
is passed in explicitly as a `now` parameter.
-/

namespace GitForge

/-- Substring search on lists: `listContainsSub l pat` is true iff `pat`
occurs contiguously inside `l` (JavaScript `String.prototype.includes`
restricted to character lists; the empty pattern occurs everywhere). -/
def listContainsSub : List Char → List Char → Bool
  | _, [] => true
  | [], _ :: _ => false
  | a :: as, p :: ps => (List.isPrefixOf (p :: ps) (a :: as)) || listContainsSub as (p :: ps)

/-- JavaScript `s.includes(pat)`. -/
def strIncludes (s pat : String) : Bool :=
  listContainsSub s.toList pat.toList

/-- JavaScript `s.toLowerCase()` (on the ASCII range used by the adapters). -/
def strToLower (s : String) : String :=
  String.mk (s.toList.map Char.toLower)

/-- An abstract timestamp (milliseconds since epoch), standing for a JS `Date`. -/
structure DateTime where
  ms : Int
deriving DecidableEq, Repr

/-- The result of JavaScript `parseInt(s, 10)`: leading whitespace and an
optional sign are skipped, then the longest digit run is read; `NaN` when
there is none. -/
inductive JsNum where
  | nan : JsNum
  | num (n : Int) : JsNum
deriving DecidableEq, Repr

/-- Models JavaScript `parseInt(s, 10)`. -/
def jsParseInt (s : String) : JsNum :=
  let cs := s.toList.dropWhile (fun c => c.isWhitespace)
  let signAndRest : Int × List Char :=
    match cs with
    | '-' :: rest => (-1, rest)
    | '+' :: rest => (1, rest)
    | _ => (1, cs)
  let ds := signAndRest.2.takeWhile (fun c => c.isDigit)
  if ds.isEmpty then JsNum.nan
  else JsNum.num (signAndRest.1 * (ds.foldl (fun a c => a * 10 + (c.toNat - 48)) 0 : Nat))

/-- src/types.ts: supported git hosting providers. -/
inductive Provider where
  | github
  | gitlab
  | azureDevops
deriving DecidableEq, Repr

/-- src/types.ts `Repository`: repository identifier with provider-specific
details; `project` is the optional Azure DevOps project name. -/
structure Repository where
  provider : Provider
  owner : String
  repo : String
  project : Option String := none
deriving DecidableEq, Repr

/-- src/types.ts `Branch` (normalized). The source field `protected` is a
Lean keyword and is rendered `protectedFlag`. -/
structure Branch where
  name : String
  sha : String
  isDefault : Bool
  protectedFlag : Bool
deriving DecidableEq, Repr

/-- src/types.ts `PullRequest` (normalized). `state` is the TS string union
"open" | "closed" | "merged", kept as `String` exactly as in the source. -/
structure PullRequest where
  id : Int
  number : Int
  title : String
  description : Option String
  state : String
  sourceBranch : String
  targetBranch : String
  author : String
  url : String
  draft : Bool
  createdAt : DateTime
  updatedAt : DateTime
deriving DecidableEq, Repr

/-- src/types.ts `CommitResult`. -/
structure CommitResult where
  sha : String
  message : String
deriving DecidableEq, Repr

/-- src/types.ts `CreateBranchInput`. -/
structure CreateBranchInput where
  name : String
  fromRef : String
deriving DecidableEq, Repr

/-- src/types.ts `CreatePullRequestInput` (`description` and `draft` optional). -/
structure CreatePullRequestInput where
  title : String
  description : Option String := none
  sourceBranch : String
  targetBranch : String
  draft : Option Bool := none
deriving DecidableEq, Repr

/-- src/types.ts `ListPullRequestsOptions`; `state` is the TS string union
"open" | "closed" | "all", kept as `String`. -/
structure ListPullRequestsOptions where
  state : Option String := none
  limit : Option Nat := none
deriving DecidableEq, Repr

/-- src/types.ts `CommitFileInput`. -/
structure CommitFileInput where
  path : String
  content : String
  message : String
  branch : String
deriving DecidableEq, Repr

/-- The `resource` discriminator of `NotFoundError` in src/errors.ts. -/
inductive Resource where
  | repository
  | branch
  | pullRequest
deriving DecidableEq, Repr

mutual
/-- src/errors.ts: the closed union `ForgeError` of the five tagged error
classes. `gitForgeError` is the catch-all `GitForgeError` and carries the raw
thrown value as its `cause`; `rateLimitError.retryAfter` is the value of
`parseInt` on the retry-after header when the header was present. -/
inductive ForgeError : Type where
  | gitForgeError (provider : Provider) (operation : String) (message : String) (cause : Thrown) : ForgeError
  | authenticationError (provider : Provider) (message : String) : ForgeError
  | notFoundError (provider : Provider) (resource : Resource) (identifier : String) : ForgeError
  | rateLimitError (provider : Provider) (retryAfter : Option JsNum) : ForgeError
  | validationError (provider : Provider) (message : String) (field : Option String) : ForgeError

/-- A JavaScript value thrown by a native client call or by the adapter
itself inside a `try` block: a plain `Error` (with, for the
octokit-style errors, an optional numeric `status` and retry-after header),
one of the repository's own tagged errors (which extend `Error`), or a
non-`Error` value whose `String(...)` form is recorded. -/
inductive Thrown : Type where
  | jsError (message : String) (status : Option Int) (retryAfterHeader : Option String) : Thrown
  | forgeThrown (e : ForgeError) : Thrown
  | nonError (asString : String) : Thrown
end

/-- The `message` property of a thrown repository error: tagged error classes
extend `Error`, so classes declared without a `message` field report the
empty default while the others report the field they were built with. -/
def forgeMessage : ForgeError → String
  | ForgeError.gitForgeError _ _ message _ => message
  | ForgeError.authenticationError _ message => message
  | ForgeError.notFoundError _ _ _ => ""
  | ForgeError.rateLimitError _ _ => ""
  | ForgeError.validationError _ message _ => message

/-- JavaScript `error instanceof Error` (tagged forge errors extend `Error`). -/
def instanceOfError : Thrown → Bool
  | Thrown.jsError _ _ _ => true
  | Thrown.forgeThrown _ => true
  | Thrown.nonError _ => false

/-- The `message` property of a thrown value that is an `Error` instance. -/
def errMessage : Thrown → String
  | Thrown.jsError message _ _ => message
  | Thrown.forgeThrown e => forgeMessage e
  | Thrown.nonError _ => ""

/-- JavaScript `"status" in error` yielding the numeric status when present. -/
def statusOf : Thrown → Option Int
  | Thrown.jsError _ status _ => status
  | _ => none

/-- The `headers?.["retry-after"]` lookup available on octokit errors. -/
def retryAfterHeaderOf : Thrown → Option String
  | Thrown.jsError _ _ h => h
  | _ => none

/-- `error instanceof Error ? error.message : String(error)`. -/
def thrownToMessage : Thrown → String
  | Thrown.jsError message _ _ => message
  | Thrown.forgeThrown e => forgeMessage e
  | Thrown.nonError asString => asString

/-! ### Effect plumbing

Each adapter operation is an async `try` body followed by a `catch` handler.
A running body is a pair of the body's outcome (`Except ε α`: a value, or the
thrown value that rejected it) and the ordered list of backend calls issued so
far. A later call is only issued when every earlier await succeeded. -/

/-- A computation step: outcome so far plus the backend calls issued. -/
abbrev Step (κ : Type) (ε : Type) (α : Type) := Except ε α × List κ

/-- A pure value: no backend call. -/
def stepPure {κ ε α : Type} (a : α) : Step κ ε α := (Except.ok a, [])

/-- A synchronous throw: no backend call. -/
def stepThrow {κ ε α : Type} (e : ε) : Step κ ε α := (Except.error e, [])

/-- One awaited backend call: the call is issued, the backend resolves or
rejects it. -/
def stepCall {κ ε α : Type} (c : κ) (resp : Except ε α) : Step κ ε α := (resp, [c])

/-- Sequencing: the continuation runs (and issues its calls) only when the
first step succeeded. -/
def stepBind {κ ε α β : Type} (x : Step κ ε α) (f : α → Step κ ε β) : Step κ ε β :=
  match x with
  | (Except.ok a, t) =>
    match f a with
    | (r, t2) => (r, t ++ t2)
  | (Except.error e, t) => (Except.error e, t)

/-- `Promise.all` of two independent calls: both are issued; the pair resolves
when both do, and rejects with the first listed rejection otherwise. -/
def stepPar {κ ε α β : Type} (x : Step κ ε α) (y : Step κ ε β) : Step κ ε (α × β) :=
  match x, y with
  | (Except.ok a, t1), (Except.ok b, t2) => (Except.ok (a, b), t1 ++ t2)
  | (Except.error e, t1), (_, t2) => (Except.error e, t1 ++ t2)
  | (Except.ok _, t1), (Except.error e, t2) => (Except.error e, t1 ++ t2)

/-- `Effect.tryPromise { try, catch }`: the catch handler maps the thrown
value of a rejected body to a normalized `ForgeError`; the calls already
issued are unchanged. -/
def runTry {κ α : Type} (body : Step κ Thrown α) (handler : Thrown → ForgeError) :
    Step κ ForgeError α :=
  match body with
  | (Except.ok a, t) => (Except.ok a, t)
  | (Except.error e, t) => (Except.error (handler e), t)

/-- `Effect.catchAll` on an already-normalized step: on failure run the
fallback (its calls run after the first attempt's). -/
def stepCatchAll {κ α : Type} (x : Step κ ForgeError α) (f : Step κ ForgeError α) :
    Step κ ForgeError α :=
  match x with
  | (Except.ok a, t) => (Except.ok a, t)
  | (Except.error _, t) =>
    match f with
    | (r, t2) => (r, t ++ t2)

/-- The 40-hex-character commit identifier test `/^[0-9a-f]{40}$/i`. -/
def isSha40 (s : String) : Bool :=
  s.length == 40 &&
    s.toList.all fun c =>
      c.isDigit || ('a' ≤ c && c ≤ 'f') || ('A' ≤ c && c ≤ 'F')

/-! ### GitLab adapter (src/providers/gitlab.ts) -/

/-- src/providers/gitlab.ts `mapError`: map GitLab API errors to typed
forge errors. The source checks `error instanceof Error` and then runs an
ordered chain of case-insensitive substring tests on the message. -/
def gitlabMapError (error : Thrown) (operation : String) : ForgeError :=
  if instanceOfError error then
    let message := strToLower (errMessage error)
    if strIncludes message "401" || strIncludes message "unauthorized" then
      ForgeError.authenticationError Provider.gitlab (errMessage error)
    else if strIncludes message "404" || strIncludes message "not found" then
      ForgeError.notFoundError Provider.gitlab Resource.repository "unknown"
    else if strIncludes message "422" || strIncludes message "invalid" then
      ForgeError.validationError Provider.gitlab (errMessage error) none
    else if strIncludes message "429" || strIncludes message "rate limit" then
      ForgeError.rateLimitError Provider.gitlab none
    else
      ForgeError.gitForgeError Provider.gitlab operation (thrownToMessage error) error
  else
    ForgeError.gitForgeError Provider.gitlab operation (thrownToMessage error) error

/-- src/providers/gitlab.ts `mapMrState`: GitLab MR state to normalized state. -/
def mapMrState (state : String) : String :=
  if state == "merged" then "merged"
  else if state == "opened" then "open"
  else "closed"

/-- src/providers/gitlab.ts `getProjectId`: GitLab uses "owner/repo" as the
project identifier. -/
def getProjectId (owner repo : String) : String :=
  owner ++ "/" ++ repo

/-- The `commit` object on a native GitLab branch payload. -/
structure GitLabCommit where
  id : String
deriving DecidableEq, Repr

/-- A native GitLab branch payload (the fields the adapter reads). The native
field `protected` is a Lean keyword and is rendered `protectedFlag`. -/
structure GitLabBranch where
  name : String
  commit : GitLabCommit
  protectedFlag : Bool
deriving DecidableEq, Repr

/-- A native GitLab project payload (the adapter reads `default_branch`,
which the API may omit for an empty project). -/
structure GitLabProject where
  default_branch : Option String
deriving DecidableEq, Repr

/-- A native GitLab merge-request payload (the fields the adapter reads).
`author_username` stands for the `author?.username` optional chain, and
`draft` / `work_in_progress` are the two optional native draft signals. -/
structure GitLabMr where
  id : Int
  iid : Int
  title : String
  description : Option String
  state : String
  source_branch : String
  target_branch : String
  author_username : Option String
  web_url : String
  draft : Option Bool
  work_in_progress : Option Bool
  created_at : DateTime
  updated_at : DateTime
deriving DecidableEq, Repr

/-- One call to the native gitbeaker client, with the arguments the adapter
passed. -/
inductive GitLabCall where
  | branchesCreate (projectId name fromRef : String)
  | branchesShow (projectId name : String)
  | branchesAll (projectId : String) (perPage : Nat)
  | projectsShow (projectId : String)
  | mergeRequestsCreate (projectId sourceBranch targetBranch title : String)
      (description : Option String)
  | mergeRequestsShow (projectId : String) (iid : Int)
  | mergeRequestsAll (projectId : String) (state : Option String) (perPage : Nat)
deriving DecidableEq, Repr

/-- The native gitbeaker client as an opaque collaborator: each method the
adapter calls, as a function from its arguments to resolution or rejection. -/
structure GitLabBackend where
  branchesCreate : String → String → String → Except Thrown GitLabBranch
  branchesShow : String → String → Except Thrown GitLabBranch
  branchesAll : String → Nat → Except Thrown (List GitLabBranch)
  projectsShow : String → Except Thrown GitLabProject
  mergeRequestsCreate : String → String → String → String → Option String →
    Except Thrown GitLabMr
  mergeRequestsShow : String → Int → Except Thrown GitLabMr
  mergeRequestsAll : String → Option String → Nat → Except Thrown (List GitLabMr)

/-- The merge-request-to-`PullRequest` object literal repeated verbatim in the
source's createPullRequest, getPullRequest and listPullRequests:
`draft: mr.draft ?? mr.work_in_progress ?? false` and
`author: mr.author?.username ?? "unknown"`. -/
def gitlabMapMr (mr : GitLabMr) : PullRequest :=
  { id := mr.id
    number := mr.iid
    title := mr.title
    description := mr.description
    state := mapMrState mr.state
    sourceBranch := mr.source_branch
    targetBranch := mr.target_branch
    author := mr.author_username.getD "unknown"
    url := mr.web_url
    draft := mr.draft.getD (mr.work_in_progress.getD false)
    createdAt := mr.created_at
    updatedAt := mr.updated_at }

/-- src/providers/gitlab.ts `createBranch`: create the branch from `fromRef`
as given (no client-side pattern match or ref resolution), then read the
project to compute `isDefault`. -/
def gitlabCreateBranch (be : GitLabBackend) (repo : Repository)
    (input : CreateBranchInput) : Step GitLabCall ForgeError Branch :=
  let projectId := getProjectId repo.owner repo.repo
  runTry
    (stepBind (stepCall (GitLabCall.branchesCreate projectId input.name input.fromRef)
        (be.branchesCreate projectId input.name input.fromRef)) fun branch =>
      stepBind (stepCall (GitLabCall.projectsShow projectId)
          (be.projectsShow projectId)) fun project =>
        stepPure
          { name := branch.name
            sha := branch.commit.id
            isDefault := project.default_branch == some branch.name
            protectedFlag := branch.protectedFlag })
    (fun e => gitlabMapError e "createBranch")

/-- The inline catch of src/providers/gitlab.ts `getBranch`: a thrown `Error`
whose lowercased message contains "not found" becomes
`NotFoundError(branch, name)`; everything else funnels through `mapError`. -/
def gitlabGetBranchCatch (name : String) (e : Thrown) : ForgeError :=
  if instanceOfError e && strIncludes (strToLower (errMessage e)) "not found" then
    ForgeError.notFoundError Provider.gitlab Resource.branch name
  else
    gitlabMapError e "getBranch"

/-- src/providers/gitlab.ts `getBranch`: `Promise.all` of the branch detail
and the project (for the default branch), joined into a normalized `Branch`. -/
def gitlabGetBranch (be : GitLabBackend) (repo : Repository) (name : String) :
    Step GitLabCall ForgeError Branch :=
  let projectId := getProjectId repo.owner repo.repo
  runTry
    (stepBind (stepPar
        (stepCall (GitLabCall.branchesShow projectId name)
          (be.branchesShow projectId name))
        (stepCall (GitLabCall.projectsShow projectId)
          (be.projectsShow projectId))) fun bp =>
      stepPure
        { name := bp.1.name
          sha := bp.1.commit.id
          isDefault := bp.2.default_branch == some bp.1.name
          protectedFlag := bp.1.protectedFlag })
    (gitlabGetBranchCatch name)

/-- src/providers/gitlab.ts `listBranches`: `Promise.all` of one branch page
(`perPage: 100`) and the project, mapped in native order. -/
def gitlabListBranches (be : GitLabBackend) (repo : Repository) :
    Step GitLabCall ForgeError (List Branch) :=
  let projectId := getProjectId repo.owner repo.repo
  runTry
    (stepBind (stepPar
        (stepCall (GitLabCall.branchesAll projectId 100)
          (be.branchesAll projectId 100))
        (stepCall (GitLabCall.projectsShow projectId)
          (be.projectsShow projectId))) fun bp =>
      stepPure (bp.1.map fun b =>
        { name := b.name
          sha := b.commit.id
          isDefault := bp.2.default_branch == some b.name
          protectedFlag := b.protectedFlag }))
    (fun e => gitlabMapError e "listBranches")

/-- src/providers/gitlab.ts `createPullRequest`: GitLab marks MRs as draft
when the title starts with "Draft: ", so a truthy `input.draft` prefixes the
title sent to the backend; the returned object is mapped like every other MR
(the `draft` field comes from the native response, not from the title). -/
def gitlabCreatePullRequest (be : GitLabBackend) (repo : Repository)
    (input : CreatePullRequestInput) : Step GitLabCall ForgeError PullRequest :=
  let projectId := getProjectId repo.owner repo.repo
  let title := if input.draft.getD false then "Draft: " ++ input.title else input.title
  runTry
    (stepBind (stepCall
        (GitLabCall.mergeRequestsCreate projectId input.sourceBranch
          input.targetBranch title input.description)
        (be.mergeRequestsCreate projectId input.sourceBranch
          input.targetBranch title input.description)) fun mr =>
      stepPure (gitlabMapMr mr))
    (fun e => gitlabMapError e "createPullRequest")

/-- The inline catch of src/providers/gitlab.ts `getPullRequest` ("not found"
message becomes `NotFoundError(pull-request, String(number))`). -/
def gitlabGetPullRequestCatch (number : Int) (e : Thrown) : ForgeError :=
  if instanceOfError e && strIncludes (strToLower (errMessage e)) "not found" then
    ForgeError.notFoundError Provider.gitlab Resource.pullRequest (toString number)
  else
    gitlabMapError e "getPullRequest"

/-- src/providers/gitlab.ts `getPullRequest`. -/
def gitlabGetPullRequest (be : GitLabBackend) (repo : Repository) (number : Int) :
    Step GitLabCall ForgeError PullRequest :=
  let projectId := getProjectId repo.owner repo.repo
  runTry
    (stepBind (stepCall (GitLabCall.mergeRequestsShow projectId number)
        (be.mergeRequestsShow projectId number)) fun mr =>
      stepPure (gitlabMapMr mr))
    (gitlabGetPullRequestCatch number)

/-- src/providers/gitlab.ts `listPullRequests`: "all" omits the state filter,
"closed" passes "closed", anything else passes "opened"; page size is
`options?.limit ?? 30`. -/
def gitlabListPullRequests (be : GitLabBackend) (repo : Repository)
    (options : Option ListPullRequestsOptions) :
    Step GitLabCall ForgeError (List PullRequest) :=
  let projectId := getProjectId repo.owner repo.repo
  let state : Option String :=
    if options.bind (fun o => o.state) == some "all" then none
    else if options.bind (fun o => o.state) == some "closed" then some "closed"
    else some "opened"
  let perPage := (options.bind (fun o => o.limit)).getD 30
  runTry
    (stepBind (stepCall (GitLabCall.mergeRequestsAll projectId state perPage)
        (be.mergeRequestsAll projectId state perPage)) fun mrs =>
      stepPure (mrs.map gitlabMapMr))
    (fun e => gitlabMapError e "listPullRequests")

/-! ### GitHub adapter (src/providers/github.ts) -/

/-- src/providers/github.ts `mapError`: octokit errors carry a numeric
`status`; the chain is status-based (401/403, 404, 422, 429 with a parsed
retry-after header) with a generic fallback. -/
def githubMapError (error : Thrown) (operation : String) : ForgeError :=
  match statusOf error with
  | some status =>
    if status == 401 || status == 403 then
      ForgeError.authenticationError Provider.github (errMessage error)
    else if status == 404 then
      ForgeError.notFoundError Provider.github Resource.repository "unknown"
    else if status == 422 then
      ForgeError.validationError Provider.github (errMessage error) none
    else if status == 429 then
      match retryAfterHeaderOf error with
      | some h => ForgeError.rateLimitError Provider.github (some (jsParseInt h))
      | none => ForgeError.rateLimitError Provider.github none
    else
      ForgeError.gitForgeError Provider.github operation (thrownToMessage error) error
  | none =>
    ForgeError.gitForgeError Provider.github operation (thrownToMessage error) error

/-- src/providers/github.ts `mapPrState`: `merged` always wins, then native
"open", else "closed". -/
def githubMapPrState (state : String) (merged : Bool) : String :=
  if merged then "merged"
  else if state == "open" then "open"
  else "closed"

/-- The `object` of a native GitHub git ref payload. -/
structure GitHubRefObject where
  sha : String
deriving DecidableEq, Repr

/-- A native GitHub git ref payload. -/
structure GitHubRef where
  object : GitHubRefObject
deriving DecidableEq, Repr

/-- The `commit` object on a native GitHub branch payload. -/
structure GitHubCommitRef where
  sha : String
deriving DecidableEq, Repr

/-- A native GitHub branch payload; `protected` rendered `protectedFlag`. -/
structure GitHubBranchData where
  name : String
  commit : GitHubCommitRef
  protectedFlag : Bool
deriving DecidableEq, Repr

/-- A native GitHub repository payload (the adapter reads `default_branch`). -/
structure GitHubRepoData where
  default_branch : String
deriving DecidableEq, Repr

/-- A native GitHub pull payload (the fields the adapter reads). `user_login`
stands for the `user?.login` optional chain; `merged` is only present on the
single-PR endpoints, `merged_at` on the list endpoint. -/
structure GitHubPull where
  id : Int
  number : Int
  title : String
  body : Option String
  state : String
  merged : Option Bool
  merged_at : Option DateTime
  head_ref : String
  base_ref : String
  user_login : Option String
  html_url : String
  draft : Option Bool
  created_at : DateTime
  updated_at : DateTime
deriving DecidableEq, Repr

/-- One call to the native octokit client, with the arguments passed. -/
inductive GitHubCall where
  | gitGetRef (owner repo ref : String)
  | gitCreateRef (owner repo ref sha : String)
  | reposGet (owner repo : String)
  | reposGetBranch (owner repo branch : String)
  | reposListBranches (owner repo : String) (perPage : Nat)
  | pullsGet (owner repo : String) (pullNumber : Int)
deriving DecidableEq, Repr

/-- The native octokit client as an opaque collaborator (the methods the
embedded operations call). -/
structure GitHubBackend where
  gitGetRef : String → String → String → Except Thrown GitHubRef
  gitCreateRef : String → String → String → String → Except Thrown Unit
  reposGet : String → String → Except Thrown GitHubRepoData
  reposGetBranch : String → String → String → Except Thrown GitHubBranchData
  reposListBranches : String → String → Nat → Except Thrown (List GitHubBranchData)
  pullsGet : String → String → Int → Except Thrown GitHubPull

/-- src/providers/github.ts `createBranch`: a `fromRef` matching the 40-hex
pattern is used directly as the SHA; otherwise `git.getRef` resolves
`heads/<fromRef>` first. The new ref is created, the repository is read for
the default branch, and the returned branch is unconditionally
`protected: false` ("New branches are not protected"). -/
def githubCreateBranch (be : GitHubBackend) (repo : Repository)
    (input : CreateBranchInput) : Step GitHubCall ForgeError Branch :=
  runTry
    (stepBind
      (if isSha40 input.fromRef then
        stepPure input.fromRef
      else
        stepBind (stepCall (GitHubCall.gitGetRef repo.owner repo.repo ("heads/" ++ input.fromRef))
            (be.gitGetRef repo.owner repo.repo ("heads/" ++ input.fromRef))) fun ref =>
          stepPure ref.object.sha) fun sha =>
      stepBind (stepCall (GitHubCall.gitCreateRef repo.owner repo.repo
          ("refs/heads/" ++ input.name) sha)
          (be.gitCreateRef repo.owner repo.repo ("refs/heads/" ++ input.name) sha)) fun _ =>
        stepBind (stepCall (GitHubCall.reposGet repo.owner repo.repo)
            (be.reposGet repo.owner repo.repo)) fun repoData =>
          stepPure
            { name := input.name
              sha := sha
              isDefault := repoData.default_branch == input.name
              protectedFlag := false })
    (fun e => githubMapError e "createBranch")

/-- The inline catch of src/providers/github.ts `getBranch`: a thrown error
with `status === 404` becomes `NotFoundError(branch, name)`. -/
def githubGetBranchCatch (name : String) (e : Thrown) : ForgeError :=
  if statusOf e == some 404 then
    ForgeError.notFoundError Provider.github Resource.branch name
  else
    githubMapError e "getBranch"

/-- src/providers/github.ts `getBranch`: `Promise.all` of the branch detail
and the repository (for the default branch). -/
def githubGetBranch (be : GitHubBackend) (repo : Repository) (name : String) :
    Step GitHubCall ForgeError Branch :=
  runTry
    (stepBind (stepPar
        (stepCall (GitHubCall.reposGetBranch repo.owner repo.repo name)
          (be.reposGetBranch repo.owner repo.repo name))
        (stepCall (GitHubCall.reposGet repo.owner repo.repo)
          (be.reposGet repo.owner repo.repo))) fun br =>
      stepPure
        { name := br.1.name
          sha := br.1.commit.sha
          isDefault := br.2.default_branch == name
          protectedFlag := br.1.protectedFlag })
    (githubGetBranchCatch name)

/-- src/providers/github.ts `listBranches`: `Promise.all` of one branch page
(`per_page: 100`) and the repository, mapped in native order. -/
def githubListBranches (be : GitHubBackend) (repo : Repository) :
    Step GitHubCall ForgeError (List Branch) :=
  runTry
    (stepBind (stepPar
        (stepCall (GitHubCall.reposListBranches repo.owner repo.repo 100)
          (be.reposListBranches repo.owner repo.repo 100))
        (stepCall (GitHubCall.reposGet repo.owner repo.repo)
          (be.reposGet repo.owner repo.repo))) fun br =>
      stepPure (br.1.map fun b =>
        { name := b.name
          sha := b.commit.sha
          isDefault := br.2.default_branch == b.name
          protectedFlag := b.protectedFlag }))
    (fun e => githubMapError e "listBranches")

/-- The inline catch of src/providers/github.ts `getPullRequest`
(`status === 404` becomes `NotFoundError(pull-request, String(number))`). -/
def githubGetPullRequestCatch (number : Int) (e : Thrown) : ForgeError :=
  if statusOf e == some 404 then
    ForgeError.notFoundError Provider.github Resource.pullRequest (toString number)
  else
    githubMapError e "getPullRequest"

/-- src/providers/github.ts `getPullRequest`:
`state: mapPrState(data.state, data.merged ?? false)`. -/
def githubGetPullRequest (be : GitHubBackend) (repo : Repository) (number : Int) :
    Step GitHubCall ForgeError PullRequest :=
  runTry
    (stepBind (stepCall (GitHubCall.pullsGet repo.owner repo.repo number)
        (be.pullsGet repo.owner repo.repo number)) fun data =>
      stepPure
        { id := data.id
          number := data.number
          title := data.title
          description := data.body
          state := githubMapPrState data.state (data.merged.getD false)
          sourceBranch := data.head_ref
          targetBranch := data.base_ref
          author := data.user_login.getD "unknown"
          url := data.html_url
          draft := data.draft.getD false
          createdAt := data.created_at
          updatedAt := data.updated_at })
    (githubGetPullRequestCatch number)

/-! ### Azure DevOps adapter (src/providers/azure-devops.ts) -/

/-- src/providers/azure-devops.ts `mapError`: message-substring chain like
GitLab's, but with "400" in place of "422" for the validation case. -/
def azureMapError (error : Thrown) (operation : String) : ForgeError :=
  if instanceOfError error then
    let message := strToLower (errMessage error)
    if strIncludes message "401" || strIncludes message "unauthorized" then
      ForgeError.authenticationError Provider.azureDevops (errMessage error)
    else if strIncludes message "404" || strIncludes message "not found" then
      ForgeError.notFoundError Provider.azureDevops Resource.repository "unknown"
    else if strIncludes message "400" || strIncludes message "invalid" then
      ForgeError.validationError Provider.azureDevops (errMessage error) none
    else if strIncludes message "429" || strIncludes message "rate limit" then
      ForgeError.rateLimitError Provider.azureDevops none
    else
      ForgeError.gitForgeError Provider.azureDevops operation (thrownToMessage error) error
  else
    ForgeError.gitForgeError Provider.azureDevops operation (thrownToMessage error) error

/-- src/providers/azure-devops.ts `mapPrState`: native numeric status
1 = active, 2 = abandoned, 3 = completed; 1 maps to "open", 3 to "merged",
everything else (including a missing status) to "closed". -/
def azureMapPrState (status : Option Int) : String :=
  match status with
  | some 1 => "open"
  | some 3 => "merged"
  | _ => "closed"

/-- src/providers/azure-devops.ts `extractBranchName`: a falsy ref (absent or
the empty string) is "unknown"; otherwise the regex strips one leading
"refs/heads/" when present. -/
def extractBranchName (ref : Option String) : String :=
  match ref with
  | none => "unknown"
  | some r =>
    if r == "" then "unknown"
    else if List.isPrefixOf "refs/heads/".toList r.toList then String.mk (r.toList.drop 11)
    else r

/-- The message of the `ValidationError` thrown by `getProject`. -/
def azureProjectMessage : String :=
  "Azure DevOps requires a project name. Set repo.project to the Azure DevOps project name."

/-- The `ValidationError` thrown by `getProject` (field "project"). -/
def azureProjectError : ForgeError :=
  ForgeError.validationError Provider.azureDevops azureProjectMessage (some "project")

/-- src/providers/azure-devops.ts `getProject`: `if (!repo.project) throw new
ValidationError(...)` — an absent or empty project name is falsy and throws;
otherwise the project name is returned. -/
def getProject (repo : Repository) : Except ForgeError String :=
  match repo.project with
  | none => Except.error azureProjectError
  | some p => if p == "" then Except.error azureProjectError else Except.ok p

/-- `getProject` run inside a `try` block: its throw rejects the body with
the `ValidationError` as the thrown value. -/
def getProjectT {κ : Type} (repo : Repository) : Step κ Thrown String :=
  match getProject repo with
  | Except.ok p => stepPure p
  | Except.error fe => stepThrow (Thrown.forgeThrown fe)

/-- A native Azure git ref payload (every field optional in the SDK types). -/
structure AzureGitRef where
  name : Option String
  objectId : Option String
  isLocked : Option Bool
deriving DecidableEq, Repr

/-- The ref update passed to `updateRefs` when creating a branch. -/
structure AzureRefUpdate where
  name : String
  oldObjectId : String
  newObjectId : String
deriving DecidableEq, Repr

/-- A native result entry from `updateRefs`. -/
structure AzureRefUpdateResult where
  success : Option Bool
  customMessage : Option String
deriving DecidableEq, Repr

/-- A native Azure repository payload (the adapter reads `defaultBranch`). -/
structure AzureRepoInfo where
  defaultBranch : Option String
deriving DecidableEq, Repr

/-- The `createdBy` identity on a native Azure pull request. -/
structure AzureIdentity where
  displayName : Option String
  uniqueName : Option String
deriving DecidableEq, Repr

/-- The `repository.project` reference on a native Azure pull request. -/
structure AzureProjectRef where
  name : Option String
deriving DecidableEq, Repr

/-- The `repository` reference on a native Azure pull request. -/
structure AzureRepoRef where
  name : Option String
  project : Option AzureProjectRef
deriving DecidableEq, Repr

/-- A native Azure `GitPullRequest` payload (the fields the adapter reads). -/
structure AzureGitPullRequest where
  pullRequestId : Option Int
  title : Option String
  description : Option String
  status : Option Int
  sourceRefName : Option String
  targetRefName : Option String
  createdBy : Option AzureIdentity
  repository : Option AzureRepoRef
  isDraft : Option Bool
  creationDate : Option DateTime
deriving DecidableEq, Repr

/-- The pull request creation payload the adapter sends. -/
structure AzurePrCreate where
  title : String
  description : Option String
  sourceRefName : String
  targetRefName : String
  isDraft : Bool
deriving DecidableEq, Repr

/-- The search criteria the adapter sends to `getPullRequests`. -/
structure AzureSearchCriteria where
  repositoryId : String
  status : Int
deriving DecidableEq, Repr

/-- The ref update inside a `createPush` payload (no `newObjectId`). -/
structure AzurePushRefUpdate where
  name : String
  oldObjectId : String
deriving DecidableEq, Repr

/-- One change inside a `createPush` commit: the explicit numeric
`changeType` (1 = add, 2 = edit), the item path, and the new content. -/
structure AzureChange where
  changeType : Int
  itemPath : String
  content : String
  contentType : Int
deriving DecidableEq, Repr

/-- One commit inside a `createPush` payload. -/
structure AzurePushCommitInput where
  comment : String
  changes : List AzureChange
deriving DecidableEq, Repr

/-- The payload the adapter sends to `createPush`. -/
structure AzurePush where
  refUpdates : List AzurePushRefUpdate
  commits : List AzurePushCommitInput
deriving DecidableEq, Repr

/-- A commit inside a native `createPush` response. -/
structure AzurePushCommit where
  commitId : Option String
deriving DecidableEq, Repr

/-- A native `createPush` response (the adapter reads
`commits?.[0]?.commitId ?? ""`). -/
structure AzurePushResult where
  commits : Option (List AzurePushCommit)
deriving DecidableEq, Repr

/-- One call to the native azure-devops-node-api client, with the arguments
passed. `getGitApi` is the awaited connection handle acquisition. -/
inductive AzureCall where
  | getGitApi
  | getRefs (repoName project filterContains : String)
  | updateRefs (updates : List AzureRefUpdate) (repoName project : String)
  | getRepository (repoName project : String)
  | createPullRequest (pr : AzurePrCreate) (repoName project : String)
  | getPullRequest (repoName : String) (pullRequestId : Int) (project : String)
  | getPullRequests (repoName : String) (criteria : AzureSearchCriteria)
      (project : String) (top : Nat)
  | createPush (push : AzurePush) (repoName project : String)
deriving DecidableEq, Repr

/-- The native azure-devops-node-api git client as an opaque collaborator. -/
structure AzureBackend where
  getGitApi : Except Thrown Unit
  getRefs : String → String → String → Except Thrown (List AzureGitRef)
  updateRefs : List AzureRefUpdate → String → String →
    Except Thrown (List AzureRefUpdateResult)
  getRepository : String → String → Except Thrown AzureRepoInfo
  createPullRequest : AzurePrCreate → String → String → Except Thrown AzureGitPullRequest
  getPullRequest : String → Int → String → Except Thrown (Option AzureGitPullRequest)
  getPullRequests : String → AzureSearchCriteria → String → Nat →
    Except Thrown (List AzureGitPullRequest)
  createPush : AzurePush → String → String → Except Thrown AzurePushResult

/-- src/providers/azure-devops.ts `mapPullRequest`: both `createdAt` and
`updatedAt` are `pr.creationDate ?? new Date()` ("Azure doesn't have
updatedAt easily"); the URL interpolates `pr.pullRequestId` raw (so an absent
id prints "undefined"); `now` is the ambient clock read by `new Date()`. -/
def mapPullRequest (pr : AzureGitPullRequest) (baseUrl : String) (now : DateTime) :
    PullRequest :=
  let repoName := (pr.repository.bind (fun r => r.name)).getD "unknown"
  let project := ((pr.repository.bind (fun r => r.project)).bind (fun p => p.name)).getD "unknown"
  let idText :=
    match pr.pullRequestId with
    | some i => toString i
    | none => "undefined"
  let prUrl := baseUrl ++ "/" ++ project ++ "/_git/" ++ repoName ++ "/pullrequest/" ++ idText
  { id := pr.pullRequestId.getD 0
    number := pr.pullRequestId.getD 0
    title := pr.title.getD ""
    description := pr.description
    state := azureMapPrState pr.status
    sourceBranch := extractBranchName pr.sourceRefName
    targetBranch := extractBranchName pr.targetRefName
    author := ((pr.createdBy.bind (fun c => c.displayName)).orElse
      (fun _ => pr.createdBy.bind (fun c => c.uniqueName))).getD "unknown"
    url := prUrl
    draft := pr.isDraft.getD false
    createdAt := pr.creationDate.getD now
    updatedAt := pr.creationDate.getD now }

/-- The catch of Azure `createBranch`: thrown `ValidationError` and
`NotFoundError` instances pass through; everything else funnels through
`mapError`. -/
def azureCreateBranchCatch (e : Thrown) : ForgeError :=
  match e with
  | Thrown.forgeThrown (ForgeError.validationError p m f) => ForgeError.validationError p m f
  | Thrown.forgeThrown (ForgeError.notFoundError p r i) => ForgeError.notFoundError p r i
  | _ => azureMapError e "createBranch"

/-- src/providers/azure-devops.ts `createBranch`: `getProject` runs first
(inside the try), the git API handle is acquired, a 40-hex `fromRef` is used
directly while any other `fromRef` is resolved via `getRefs heads/<fromRef>`
(throwing `NotFoundError(branch, fromRef)` when nothing with an object id
comes back), the branch is created by a ref update from the all-zero
object id, a failed update throws a `ValidationError`, and the repository is
read for the default branch; the result is unconditionally
`protected: false`. -/
def azureCreateBranch (be : AzureBackend) (repo : Repository)
    (input : CreateBranchInput) : Step AzureCall ForgeError Branch :=
  runTry
    (stepBind (getProjectT repo) fun project =>
      stepBind (stepCall AzureCall.getGitApi be.getGitApi) fun _ =>
        stepBind
          (if isSha40 input.fromRef then
            stepPure input.fromRef
          else
            stepBind (stepCall (AzureCall.getRefs repo.repo project ("heads/" ++ input.fromRef))
                (be.getRefs repo.repo project ("heads/" ++ input.fromRef))) fun refs =>
              match refs.head?.bind (fun r => r.objectId) with
              | some oid =>
                if oid == "" then
                  stepThrow (Thrown.forgeThrown
                    (ForgeError.notFoundError Provider.azureDevops Resource.branch input.fromRef))
                else stepPure oid
              | none =>
                stepThrow (Thrown.forgeThrown
                  (ForgeError.notFoundError Provider.azureDevops Resource.branch input.fromRef)))
          fun sha =>
          let refUpdate : AzureRefUpdate :=
            { name := "refs/heads/" ++ input.name
              oldObjectId := "0000000000000000000000000000000000000000"
              newObjectId := sha }
          stepBind (stepCall (AzureCall.updateRefs [refUpdate] repo.repo project)
              (be.updateRefs [refUpdate] repo.repo project)) fun results =>
            let result := results.head?
            if (result.bind (fun r => r.success)).getD false then
              stepBind (stepCall (AzureCall.getRepository repo.repo project)
                  (be.getRepository repo.repo project)) fun repoInfo =>
                stepPure
                  { name := input.name
                    sha := sha
                    isDefault := extractBranchName repoInfo.defaultBranch == input.name
                    protectedFlag := false }
            else
              stepThrow (Thrown.forgeThrown
                (ForgeError.validationError Provider.azureDevops
                  ("Failed to create branch: " ++
                    ((result.bind (fun r => r.customMessage)).getD "unknown error"))
                  none)))
    azureCreateBranchCatch

/-- The catch of Azure `getBranch`: only thrown `NotFoundError` instances
pass through; everything else — including the `ValidationError` thrown by
`getProject` — funnels through `mapError`. -/
def azureGetBranchCatch (e : Thrown) : ForgeError :=
  match e with
  | Thrown.forgeThrown (ForgeError.notFoundError p r i) => ForgeError.notFoundError p r i
  | _ => azureMapError e "getBranch"

/-- src/providers/azure-devops.ts `getBranch`: `getRefs heads/<name>`; an
empty result throws `NotFoundError(branch, name)`; otherwise the repository
is read for the default branch and the ref is normalized. -/
def azureGetBranch (be : AzureBackend) (repo : Repository) (name : String) :
    Step AzureCall ForgeError Branch :=
  runTry
    (stepBind (getProjectT repo) fun project =>
      stepBind (stepCall AzureCall.getGitApi be.getGitApi) fun _ =>
        stepBind (stepCall (AzureCall.getRefs repo.repo project ("heads/" ++ name))
            (be.getRefs repo.repo project ("heads/" ++ name))) fun refs =>
          match refs.head? with
          | none =>
            stepThrow (Thrown.forgeThrown
              (ForgeError.notFoundError Provider.azureDevops Resource.branch name))
          | some ref =>
            stepBind (stepCall (AzureCall.getRepository repo.repo project)
                (be.getRepository repo.repo project)) fun repoInfo =>
              stepPure
                { name := name
                  sha := ref.objectId.getD ""
                  isDefault := extractBranchName repoInfo.defaultBranch == name
                  protectedFlag := ref.isLocked.getD false })
    azureGetBranchCatch

/-- src/providers/azure-devops.ts `listBranches`: `Promise.all` of
`getRefs "heads/"` (no page-size argument) and the repository, mapped in
native order. -/
def azureListBranches (be : AzureBackend) (repo : Repository) :
    Step AzureCall ForgeError (List Branch) :=
  runTry
    (stepBind (getProjectT repo) fun project =>
      stepBind (stepCall AzureCall.getGitApi be.getGitApi) fun _ =>
        stepBind (stepPar
            (stepCall (AzureCall.getRefs repo.repo project "heads/")
              (be.getRefs repo.repo project "heads/"))
            (stepCall (AzureCall.getRepository repo.repo project)
              (be.getRepository repo.repo project))) fun rr =>
          let defaultBranch := extractBranchName rr.2.defaultBranch
          stepPure (rr.1.map fun ref =>
            { name := extractBranchName ref.name
              sha := ref.objectId.getD ""
              isDefault := extractBranchName ref.name == defaultBranch
              protectedFlag := ref.isLocked.getD false }))
    (fun e => azureMapError e "listBranches")

/-- src/providers/azure-devops.ts `commitFile` inner `getLatestRef`: resolve
the branch tip, throwing `NotFoundError(branch, branch)` when no ref with an
object id comes back; its own catch passes `NotFoundError` through and maps
everything else with operation "commitFile". -/
def azureGetLatestRef (be : AzureBackend) (repoName project branch : String) :
    Step AzureCall ForgeError String :=
  runTry
    (stepBind (stepCall (AzureCall.getRefs repoName project ("heads/" ++ branch))
        (be.getRefs repoName project ("heads/" ++ branch))) fun refs =>
      match refs.head?.bind (fun r => r.objectId) with
      | some oid =>
        if oid == "" then
          stepThrow (Thrown.forgeThrown
            (ForgeError.notFoundError Provider.azureDevops Resource.branch branch))
        else stepPure oid
      | none =>
        stepThrow (Thrown.forgeThrown
          (ForgeError.notFoundError Provider.azureDevops Resource.branch branch)))
    (fun e =>
      match e with
      | Thrown.forgeThrown (ForgeError.notFoundError p r i) => ForgeError.notFoundError p r i
      | _ => azureMapError e "commitFile")

/-- src/providers/azure-devops.ts `commitFile` inner `pushFile`: one
`createPush` attempt with the given change type against the given tip. -/
def azurePushFile (be : AzureBackend) (input : CommitFileInput)
    (repoName project branch oldObjectId : String) (changeType : Int) :
    Step AzureCall ForgeError AzurePushResult :=
  let push : AzurePush :=
    { refUpdates := [{ name := "refs/heads/" ++ branch, oldObjectId := oldObjectId }]
      commits := [{ comment := input.message
                    changes := [{ changeType := changeType
                                  itemPath := "/" ++ input.path
                                  content := input.content
                                  contentType := 0 }] }] }
  runTry
    (stepCall (AzureCall.createPush push repoName project)
      (be.createPush push repoName project))
    (fun e => azureMapError e "commitFile")

/-- src/providers/azure-devops.ts `commitFile` (an `Effect.gen`): `getProject`
runs first — its throw escapes the generator as a defect still carrying the
`ValidationError`, modelled here as that error value — then the git API
handle, the branch tip, and the add-then-edit push pair: the push is first
attempted with changeType 1 (add) and, on any failure, retried identically
with changeType 2 (edit) against the same resolved tip. -/
def azureCommitFile (be : AzureBackend) (repo : Repository) (input : CommitFileInput) :
    Step AzureCall ForgeError CommitResult :=
  match getProject repo with
  | Except.error fe => stepThrow fe
  | Except.ok project =>
    stepBind (runTry (stepCall AzureCall.getGitApi be.getGitApi)
        (fun e => azureMapError e "commitFile")) fun _ =>
      stepBind (azureGetLatestRef be repo.repo project input.branch) fun objectId =>
        stepBind (stepCatchAll
            (azurePushFile be input repo.repo project input.branch objectId 1)
            (azurePushFile be input repo.repo project input.branch objectId 2)) fun push =>
          stepPure
            { sha := (((push.commits.getD []).head?.bind (fun c => c.commitId)).getD "")
              message := input.message }

/-- src/providers/azure-devops.ts `createPullRequest`. -/
def azureCreatePullRequest (be : AzureBackend) (orgUrl : String) (repo : Repository)
    (input : CreatePullRequestInput) (now : DateTime) :
    Step AzureCall ForgeError PullRequest :=
  runTry
    (stepBind (getProjectT repo) fun project =>
      stepBind (stepCall AzureCall.getGitApi be.getGitApi) fun _ =>
        let payload : AzurePrCreate :=
          { title := input.title
            description := input.description
            sourceRefName := "refs/heads/" ++ input.sourceBranch
            targetRefName := "refs/heads/" ++ input.targetBranch
            isDraft := input.draft.getD false }
        stepBind (stepCall (AzureCall.createPullRequest payload repo.repo project)
            (be.createPullRequest payload repo.repo project)) fun pr =>
          stepPure (mapPullRequest pr orgUrl now))
    (fun e => azureMapError e "createPullRequest")

/-- The catch of Azure `getPullRequest` (`NotFoundError` passes through). -/
def azureGetPullRequestCatch (e : Thrown) : ForgeError :=
  match e with
  | Thrown.forgeThrown (ForgeError.notFoundError p r i) => ForgeError.notFoundError p r i
  | _ => azureMapError e "getPullRequest"

/-- src/providers/azure-devops.ts `getPullRequest`: a missing native pull
request throws `NotFoundError(pull-request, String(number))`. -/
def azureGetPullRequest (be : AzureBackend) (orgUrl : String) (repo : Repository)
    (number : Int) (now : DateTime) : Step AzureCall ForgeError PullRequest :=
  runTry
    (stepBind (getProjectT repo) fun project =>
      stepBind (stepCall AzureCall.getGitApi be.getGitApi) fun _ =>
        stepBind (stepCall (AzureCall.getPullRequest repo.repo number project)
            (be.getPullRequest repo.repo number project)) fun pr? =>
          match pr? with
          | none =>
            stepThrow (Thrown.forgeThrown
              (ForgeError.notFoundError Provider.azureDevops Resource.pullRequest
                (toString number)))
          | some pr => stepPure (mapPullRequest pr orgUrl now))
    azureGetPullRequestCatch

/-- src/providers/azure-devops.ts `listPullRequests`: "all" and "closed" both
fetch with native status 4 (all) — the backend's own filter only
distinguishes active vs. all — and the "closed" case then locally keeps
exactly the pull requests with native status 2 or 3; any other requested
state fetches status 1 (active). Page-size hint `options?.limit ?? 30`. -/
def azureListPullRequests (be : AzureBackend) (orgUrl : String) (repo : Repository)
    (options : Option ListPullRequestsOptions) (now : DateTime) :
    Step AzureCall ForgeError (List PullRequest) :=
  runTry
    (stepBind (getProjectT repo) fun project =>
      stepBind (stepCall AzureCall.getGitApi be.getGitApi) fun _ =>
        let status : Int :=
          if options.bind (fun o => o.state) == some "all" then 4
          else if options.bind (fun o => o.state) == some "closed" then 4
          else 1
        let searchCriteria : AzureSearchCriteria := { repositoryId := repo.repo, status := status }
        let top := (options.bind (fun o => o.limit)).getD 30
        stepBind (stepCall (AzureCall.getPullRequests repo.repo searchCriteria project top)
            (be.getPullRequests repo.repo searchCriteria project top)) fun prs =>
          let prs :=
            if options.bind (fun o => o.state) == some "closed" then
              prs.filter (fun pr => pr.status == some 2 || pr.status == some 3)
            else prs
          stepPure (prs.map (fun pr => mapPullRequest pr orgUrl now)))
    (fun e => azureMapError e "listPullRequests")

/-! ### Classification shorthand and concrete fixtures

`msgHas` abbreviates the case-insensitive substring test every message-based
classification rule uses. The remaining definitions are concrete backends and
payloads used to evaluate the operations at specific inputs. -/

/-- The adapters' case-insensitive message test: `pat` occurs in the
lowercased message of the thrown value. -/
def msgHas (e : Thrown) (pat : String) : Bool :=
  strIncludes (strToLower (errMessage e)) pat

/-- A rejection value for backend methods an evaluation never reaches. -/
def unusedThrown : Thrown :=
  Thrown.nonError "unused"

/-- A GitLab repository reference fixture. -/
def wRepoGitLab : Repository :=
  { provider := Provider.gitlab, owner := "acme", repo := "widgets" }

/-- A GitHub repository reference fixture. -/
def wRepoGitHub : Repository :=
  { provider := Provider.github, owner := "acme", repo := "widgets" }

/-- An Azure DevOps repository reference fixture with a project set. -/
def wRepoAzure : Repository :=
  { provider := Provider.azureDevops, owner := "acme", repo := "widgets",
    project := some "Proj" }

/-- A fixed clock instant for evaluations. -/
def wNow : DateTime := ⟨1700000000000⟩

/-- A GitLab backend whose every method rejects with the unused marker. -/
def gitlabBeUnused : GitLabBackend :=
  { branchesCreate := fun _ _ _ => Except.error unusedThrown
    branchesShow := fun _ _ => Except.error unusedThrown
    branchesAll := fun _ _ => Except.error unusedThrown
    projectsShow := fun _ => Except.error unusedThrown
    mergeRequestsCreate := fun _ _ _ _ _ => Except.error unusedThrown
    mergeRequestsShow := fun _ _ => Except.error unusedThrown
    mergeRequestsAll := fun _ _ _ => Except.error unusedThrown }

/-- A rejection whose message signals 404 only numerically (no "not found"
text), as a status-code-in-message failure surfaces it. -/
def thrown404Numeric : Thrown :=
  Thrown.jsError "Request failed with status code 404" none none

/-- A rejection whose message carries the "not found" text. -/
def thrownNotFoundText : Thrown :=
  Thrown.jsError "404 Branch Not Found" none none

/-- A 403-class rejection: status 403 and the standard "403 Forbidden"
message, with neither "401" nor "unauthorized" in the text. -/
def thrownForbidden : Thrown :=
  Thrown.jsError "403 Forbidden" (some 403) none

/-- A 401-class rejection. -/
def thrownUnauthorized : Thrown :=
  Thrown.jsError "401 Unauthorized" (some 401) none

/-- A GitLab backend whose branch detail rejects with the numeric-404
message. -/
def gitlabBe404 : GitLabBackend :=
  { gitlabBeUnused with branchesShow := fun _ _ => Except.error thrown404Numeric }

/-- A GitLab backend whose branch detail rejects with the "not found" text. -/
def gitlabBeNotFound : GitLabBackend :=
  { gitlabBeUnused with branchesShow := fun _ _ => Except.error thrownNotFoundText }

/-- A native GitLab MR whose draft field is explicitly false while the
work-in-progress flag is set and the title carries the "Draft: " prefix. -/
def wMrDraftFalse : GitLabMr :=
  { id := 10, iid := 3, title := "Draft: add feature", description := none
    state := "opened", source_branch := "feature", target_branch := "main"
    author_username := some "alice", web_url := "https://gitlab.example/mr/3"
    draft := some false, work_in_progress := some true
    created_at := ⟨1000⟩, updated_at := ⟨2000⟩ }

/-- A native GitLab MR as the backend returns it right after a draft
creation: native draft flag set, title already prefixed. -/
def wMrDraftTrue : GitLabMr :=
  { id := 11, iid := 4, title := "Draft: add feature", description := none
    state := "opened", source_branch := "feature", target_branch := "main"
    author_username := some "alice", web_url := "https://gitlab.example/mr/4"
    draft := some true, work_in_progress := some false
    created_at := ⟨1000⟩, updated_at := ⟨1000⟩ }

/-- A GitLab backend for the draft read-back evaluations. -/
def gitlabBeDraft : GitLabBackend :=
  { gitlabBeUnused with
    mergeRequestsShow := fun _ _ => Except.ok wMrDraftFalse
    mergeRequestsCreate := fun _ _ _ _ _ => Except.ok wMrDraftTrue }

/-- A 40-hex-character commit identifier fixture. -/
def wSha40 : String :=
  String.mk (List.replicate 40 'a')

/-- A GitLab backend whose branch creation succeeds with a commit id that
differs from any fromRef the caller passed. -/
def gitlabBeCreate : GitLabBackend :=
  { gitlabBeUnused with
    branchesCreate := fun _ name _ =>
      Except.ok { name := name, commit := { id := "f1e2d3" }, protectedFlag := false }
    projectsShow := fun _ => Except.ok { default_branch := some "main" } }

/-- A two-branch GitLab listing fixture: the default branch first, a feature
branch second. -/
def wGlBranches : List GitLabBranch :=
  [{ name := "main", commit := { id := "aa11" }, protectedFlag := true },
   { name := "feature-x", commit := { id := "bb22" }, protectedFlag := false }]

/-- A GitLab backend whose branch listing returns `wGlBranches`. -/
def gitlabBeList : GitLabBackend :=
  { gitlabBeUnused with
    branchesAll := fun _ _ => Except.ok wGlBranches
    projectsShow := fun _ => Except.ok { default_branch := some "main" } }

/-- A GitHub backend: ref resolution, ref creation and repository reads all
succeed. -/
def githubBeOk : GitHubBackend :=
  { gitGetRef := fun _ _ _ => Except.ok { object := { sha := "0123456789abcdef" } }
    gitCreateRef := fun _ _ _ _ => Except.ok ()
    reposGet := fun _ _ => Except.ok { default_branch := "main" }
    reposGetBranch := fun _ _ _ => Except.error (Thrown.jsError "Not Found" (some 404) none)
    reposListBranches := fun _ _ _ =>
      Except.ok [{ name := "main", commit := { sha := "c0ffee" }, protectedFlag := true },
                 { name := "feature", commit := { sha := "decade" }, protectedFlag := false }]
    pullsGet := fun _ _ _ => Except.error (Thrown.jsError "Not Found" (some 404) none) }

/-- An Azure backend whose every method rejects with the unused marker. -/
def azureBeUnused : AzureBackend :=
  { getGitApi := Except.error unusedThrown
    getRefs := fun _ _ _ => Except.error unusedThrown
    updateRefs := fun _ _ _ => Except.error unusedThrown
    getRepository := fun _ _ => Except.error unusedThrown
    createPullRequest := fun _ _ _ => Except.error unusedThrown
    getPullRequest := fun _ _ _ => Except.error unusedThrown
    getPullRequests := fun _ _ _ _ => Except.error unusedThrown
    createPush := fun _ _ _ => Except.error unusedThrown }

/-- A native Azure ref fixture under `refs/heads/`. -/
def wAzureRef : AzureGitRef :=
  { name := some "refs/heads/feature", objectId := some "abc123", isLocked := some false }

/-- The branch `wAzureRef` normalizes to when the default branch is "main". -/
def wAzureBranch : Branch :=
  { name := "feature", sha := "abc123", isDefault := false, protectedFlag := false }

/-- An Azure backend reporting 101 refs under `heads/` in one response. -/
def azureBe101 : AzureBackend :=
  { azureBeUnused with
    getGitApi := Except.ok ()
    getRefs := fun _ _ _ => Except.ok (List.replicate 101 wAzureRef)
    getRepository := fun _ _ => Except.ok { defaultBranch := some "refs/heads/main" } }

/-- An Azure backend with no matching refs and no matching pull request. -/
def azureBeEmpty : AzureBackend :=
  { azureBeUnused with
    getGitApi := Except.ok ()
    getRefs := fun _ _ _ => Except.ok []
    getPullRequest := fun _ _ _ => Except.ok none }

/-- A minimal native Azure pull request with the given id and status. -/
def mkAzurePr (idn : Int) (status : Int) : AzureGitPullRequest :=
  { pullRequestId := some idn, title := some "t", description := none
    status := some status, sourceRefName := some "refs/heads/feature"
    targetRefName := some "refs/heads/main"
    createdBy := some { displayName := some "Alice", uniqueName := none }
    repository := some { name := some "widgets", project := some { name := some "Proj" } }
    isDraft := some false, creationDate := some ⟨500⟩ }

/-- An Azure backend whose pull-request listing returns one active, one
abandoned and one completed pull request, and whose creation succeeds. -/
def azureBePrs : AzureBackend :=
  { azureBeUnused with
    getGitApi := Except.ok ()
    getPullRequests := fun _ _ _ _ =>
      Except.ok [mkAzurePr 1 1, mkAzurePr 2 2, mkAzurePr 3 3]
    createPullRequest := fun _ _ _ => Except.ok (mkAzurePr 7 1) }

/-- An Azure backend on which branch creation from a 40-hex fromRef
succeeds. -/
def azureBeCreate : AzureBackend :=
  { azureBeUnused with
    getGitApi := Except.ok ()
    updateRefs := fun _ _ _ => Except.ok [{ success := some true, customMessage := none }]
    getRepository := fun _ _ => Except.ok { defaultBranch := some "refs/heads/main" } }

/-! ### Helper lemmas: inverting the step combinators -/

/-- A successful `runTry` is a successful body. -/
theorem runTry_fst_ok {κ α : Type} {body : Step κ Thrown α} {handler : Thrown → ForgeError}
    {a : α} (h : (runTry body handler).1 = Except.ok a) : body.1 = Except.ok a := by
  rcases body with ⟨e, t⟩
  cases e with
  | ok a2 =>
    simp [runTry] at h
    simp [h]
  | error e2 => simp [runTry] at h

/-- A successful bind splits into a successful first step and a successful
continuation on its value. -/
theorem stepBind_fst_ok {κ ε α β : Type} {x : Step κ ε α} {f : α → Step κ ε β} {b : β}
    (h : (stepBind x f).1 = Except.ok b) : ∃ a, x.1 = Except.ok a ∧ (f a).1 = Except.ok b := by
  rcases x with ⟨e, t⟩
  cases e with
  | ok a =>
    refine ⟨a, rfl, ?_⟩
    rcases hf : f a with ⟨r, t2⟩
    simp [stepBind, hf] at h
    simp [h]
  | error e => simp [stepBind] at h

/-- A successful pure step returns its value. -/
theorem stepPure_fst_ok {κ ε α : Type} {a b : α}
    (h : (stepPure a : Step κ ε α).1 = Except.ok b) : a = b := by
  simp [stepPure] at h
  exact h

/-- A throw never succeeds. -/
theorem stepThrow_fst_ok {κ ε α : Type} {e : ε} {b : α}
    (h : (stepThrow e : Step κ ε α).1 = Except.ok b) : False := by
  simp [stepThrow] at h

/-- Both timestamp fields of `mapPullRequest` are the same expression
`pr.creationDate ?? now`. -/
theorem mapPullRequest_updatedAt_eq (pr : AzureGitPullRequest) (baseUrl : String)
    (now : DateTime) :
    (mapPullRequest pr baseUrl now).updatedAt = (mapPullRequest pr baseUrl now).createdAt := by
  rfl

/-! ### Claim theorems -/

/-- C1 (code_bug): on the Azure DevOps adapter with `project` absent, every
one of `createBranch`, `getBranch`, `listBranches` and `commitFile` fails
before any backend call (the call trace is empty), but only `createBranch`
and `commitFile` surface the `ValidationError` with field "project" that
`getProject` throws. In `getBranch` and `listBranches` the catch clause
passes only `NotFoundError` through (or nothing at all) and routes the
thrown `ValidationError` into `mapError`, whose substring rules do not match
its message, so those two operations fail with the catch-all `GitForgeError`
instead — contradicting the claim (and spec §8), which says all four fail
with ValidationError(field="project"). -/
theorem C1_azure_missing_project_fails_before_any_call :
    ∀ (be : AzureBackend) (name : String) (input : CreateBranchInput)
      (cf : CommitFileInput),
    azureCreateBranch be { provider := Provider.azureDevops, owner := "acme", repo := "widgets" } input =
      (Except.error azureProjectError, []) ∧
    azureCommitFile be { provider := Provider.azureDevops, owner := "acme", repo := "widgets" } cf =
      (Except.error azureProjectError, []) ∧
    azureGetBranch be { provider := Provider.azureDevops, owner := "acme", repo := "widgets" } name =
      (Except.error (ForgeError.gitForgeError Provider.azureDevops "getBranch"
        azureProjectMessage (Thrown.forgeThrown azureProjectError)), []) ∧
    azureListBranches be { provider := Provider.azureDevops, owner := "acme", repo := "widgets" } =
      (Except.error (ForgeError.gitForgeError Provider.azureDevops "listBranches"
        azureProjectMessage (Thrown.forgeThrown azureProjectError)), []) := by
  intro be name input cf
  exact ⟨rfl, rfl, rfl, rfl⟩

/-- C8: every successful `createBranch` on the GitHub and Azure DevOps
adapters returns a branch with `protected = false` unconditionally — the
value is hard-coded in both adapters, never read from the backend. -/
theorem C8_createBranch_protected_hardcoded_false :
    (∀ (be : GitHubBackend) (repo : Repository) (input : CreateBranchInput) (b : Branch),
      (githubCreateBranch be repo input).1 = Except.ok b → b.protectedFlag = false) ∧
    (∀ (be : AzureBackend) (repo : Repository) (input : CreateBranchInput) (b : Branch),
      (azureCreateBranch be repo input).1 = Except.ok b → b.protectedFlag = false) := by
  constructor
  · intro be repo input b h
    unfold githubCreateBranch at h
    replace h := runTry_fst_ok h
    obtain ⟨sha, -, h⟩ := stepBind_fst_ok h
    obtain ⟨-, -, h⟩ := stepBind_fst_ok h
    obtain ⟨repoData, -, h⟩ := stepBind_fst_ok h
    have hb := stepPure_fst_ok h
    simp [← hb]
  · intro be repo input b h
    unfold azureCreateBranch at h
    replace h := runTry_fst_ok h
    obtain ⟨project, -, h⟩ := stepBind_fst_ok h
    obtain ⟨-, -, h⟩ := stepBind_fst_ok h
    obtain ⟨sha, -, h⟩ := stepBind_fst_ok h
    obtain ⟨results, -, h⟩ := stepBind_fst_ok h
    dsimp only at h
    split at h
    · obtain ⟨repoInfo, -, h⟩ := stepBind_fst_ok h
      have hb := stepPure_fst_ok h
      simp [← hb]
    · exact absurd h stepThrow_fst_ok

/-- C8 witness: a concrete successful creation on each adapter, with the
branch both evaluated and fed through the theorem. -/
theorem C8_witness :
    ((githubCreateBranch githubBeOk wRepoGitHub { name := "feature", fromRef := wSha40 }).1 =
      Except.ok { name := "feature", sha := wSha40, isDefault := false, protectedFlag := false }) ∧
    (Branch.protectedFlag { name := "feature", sha := wSha40, isDefault := false, protectedFlag := false } = false) ∧
    ((azureCreateBranch azureBeCreate wRepoAzure { name := "feature", fromRef := wSha40 }).1 =
      Except.ok { name := "feature", sha := wSha40, isDefault := false, protectedFlag := false }) := by
  refine ⟨rfl, ?_, rfl⟩
  exact C8_createBranch_protected_hardcoded_false.1 githubBeOk wRepoGitHub
    { name := "feature", fromRef := wSha40 }
    { name := "feature", sha := wSha40, isDefault := false, protectedFlag := false } rfl

/-- C9: every `PullRequest` an Azure DevOps operation produces satisfies
`updatedAt = createdAt` — `mapPullRequest` fills both fields from the native
`creationDate` (or the ambient clock instant when it is absent), so
`updatedAt` never reflects a later modification. -/
theorem C9_azure_updatedAt_equals_createdAt :
    (∀ (pr : AzureGitPullRequest) (baseUrl : String) (now : DateTime),
      (mapPullRequest pr baseUrl now).updatedAt = (mapPullRequest pr baseUrl now).createdAt) ∧
    (∀ (be : AzureBackend) (orgUrl : String) (repo : Repository)
        (input : CreatePullRequestInput) (now : DateTime) (p : PullRequest),
      (azureCreatePullRequest be orgUrl repo input now).1 = Except.ok p →
      p.updatedAt = p.createdAt) ∧
    (∀ (be : AzureBackend) (orgUrl : String) (repo : Repository)
        (number : Int) (now : DateTime) (p : PullRequest),
      (azureGetPullRequest be orgUrl repo number now).1 = Except.ok p →
      p.updatedAt = p.createdAt) ∧
    (∀ (be : AzureBackend) (orgUrl : String) (repo : Repository)
        (options : Option ListPullRequestsOptions) (now : DateTime) (l : List PullRequest),
      (azureListPullRequests be orgUrl repo options now).1 = Except.ok l →
      ∀ p ∈ l, p.updatedAt = p.createdAt) := by
  refine ⟨mapPullRequest_updatedAt_eq, ?_, ?_, ?_⟩
  · intro be orgUrl repo input now p h
    unfold azureCreatePullRequest at h
    replace h := runTry_fst_ok h
    obtain ⟨project, -, h⟩ := stepBind_fst_ok h
    obtain ⟨-, -, h⟩ := stepBind_fst_ok h
    dsimp only at h
    obtain ⟨pr, -, h⟩ := stepBind_fst_ok h
    have hp := stepPure_fst_ok h
    rw [← hp]
    exact mapPullRequest_updatedAt_eq pr orgUrl now
  · intro be orgUrl repo number now p h
    unfold azureGetPullRequest at h
    replace h := runTry_fst_ok h
    obtain ⟨project, -, h⟩ := stepBind_fst_ok h
    obtain ⟨-, -, h⟩ := stepBind_fst_ok h
    obtain ⟨pr?, -, h⟩ := stepBind_fst_ok h
    cases pr? with
    | none => exact absurd h stepThrow_fst_ok
    | some pr =>
      have hp := stepPure_fst_ok h
      rw [← hp]
      exact mapPullRequest_updatedAt_eq pr orgUrl now
  · intro be orgUrl repo options now l h p hp
    unfold azureListPullRequests at h
    replace h := runTry_fst_ok h
    obtain ⟨project, -, h⟩ := stepBind_fst_ok h
    obtain ⟨-, -, h⟩ := stepBind_fst_ok h
    dsimp only at h
    obtain ⟨prs, -, h⟩ := stepBind_fst_ok h
    have hl := stepPure_fst_ok h
    rw [← hl] at hp
    obtain ⟨pr, -, hpr⟩ := List.mem_map.1 hp
    rw [← hpr]
    exact mapPullRequest_updatedAt_eq pr orgUrl now

/-- C9 witness: a concrete creation whose native payload carries a creation
date, run through the theorem. -/
theorem C9_witness :
    ((azureCreatePullRequest azureBePrs "https://dev.azure.com/acme" wRepoAzure
      { title := "t", sourceBranch := "feature", targetBranch := "main" } wNow).1 =
      Except.ok (mapPullRequest (mkAzurePr 7 1) "https://dev.azure.com/acme" wNow)) ∧
    (mapPullRequest (mkAzurePr 7 1) "https://dev.azure.com/acme" wNow).updatedAt =
      (mapPullRequest (mkAzurePr 7 1) "https://dev.azure.com/acme" wNow).createdAt := by
  refine ⟨rfl, ?_⟩
  exact C9_azure_updatedAt_equals_createdAt.2.1 azureBePrs "https://dev.azure.com/acme"
    wRepoAzure { title := "t", sourceBranch := "feature", targetBranch := "main" } wNow
    (mapPullRequest (mkAzurePr 7 1) "https://dev.azure.com/acme" wNow) rfl

/-- C10 counterexample: the more specific resource tags are not exclusive to
the inline checks of `getBranch`/`getPullRequest` — the Azure DevOps
`createBranch` throws `NotFoundError(resource="branch",
identifier=<fromRef>)` itself when a non-hex `fromRef` resolves to no object
id, and its catch passes it through to the caller, refuting the claim's
"only" clause at a concrete input. -/
theorem C10_counterexample :
    (azureCreateBranch azureBeEmpty wRepoAzure { name := "b", fromRef := "develop" }).1 =
      Except.error (ForgeError.notFoundError Provider.azureDevops Resource.branch "develop") ∧
    isSha40 "develop" = false ∧
    Resource.branch ≠ Resource.repository := by
  exact ⟨rfl, by decide, by decide⟩

/-- C10 amended: whenever the generic `mapError` of any adapter classifies a
failure as not-found (GitLab/Azure: lowercased message contains "404" or
"not found" without the earlier authentication markers; GitHub: status 404),
the result is always `NotFoundError(resource="repository",
identifier="unknown")`, no matter which operation was running. More specific
resource tags come only from inline checks in the operations themselves:
besides the inline catches of `getBranch`/`getPullRequest`, the Azure DevOps
`createBranch` ref resolution and `commitFile`'s `getLatestRef` also throw
`NotFoundError(resource="branch")` with the unresolved name and pass it
through their catches. -/
theorem C10_generic_notfound_is_repository_unknown :
    (∀ (e : Thrown) (op : String), instanceOfError e = true →
      (msgHas e "401" || msgHas e "unauthorized") = false →
      (msgHas e "404" || msgHas e "not found") = true →
      gitlabMapError e op =
        ForgeError.notFoundError Provider.gitlab Resource.repository "unknown") ∧
    (∀ (e : Thrown) (op : String), instanceOfError e = true →
      (msgHas e "401" || msgHas e "unauthorized") = false →
      (msgHas e "404" || msgHas e "not found") = true →
      azureMapError e op =
        ForgeError.notFoundError Provider.azureDevops Resource.repository "unknown") ∧
    (∀ (e : Thrown) (op : String), statusOf e = some 404 →
      githubMapError e op =
        ForgeError.notFoundError Provider.github Resource.repository "unknown") ∧
    (∀ (name : String) (e : Thrown), instanceOfError e = true →
      msgHas e "not found" = true →
      gitlabGetBranchCatch name e =
        ForgeError.notFoundError Provider.gitlab Resource.branch name) ∧
    (∀ (number : Int) (e : Thrown), statusOf e = some 404 →
      githubGetPullRequestCatch number e =
        ForgeError.notFoundError Provider.github Resource.pullRequest (toString number)) ∧
    (∀ (be : AzureBackend) (repo : Repository) (project : String)
        (input : CreateBranchInput) (refs : List AzureGitRef),
      repo.project = some project → (project == "") = false →
      be.getGitApi = Except.ok () →
      isSha40 input.fromRef = false →
      be.getRefs repo.repo project ("heads/" ++ input.fromRef) = Except.ok refs →
      (refs.head?.bind fun r => r.objectId) = none →
      (azureCreateBranch be repo input).1 =
        Except.error (ForgeError.notFoundError Provider.azureDevops Resource.branch
          input.fromRef)) ∧
    (∀ (be : AzureBackend) (repoName project branch : String),
      be.getRefs repoName project ("heads/" ++ branch) = Except.ok [] →
      (azureGetLatestRef be repoName project branch).1 =
        Except.error (ForgeError.notFoundError Provider.azureDevops Resource.branch
          branch)) := by
  refine ⟨?_, ?_, ?_, ?_, ?_, ?_, ?_⟩
  · intro e op h1 h2 h3
    simp only [msgHas, Bool.or_eq_false_iff] at h2
    simp only [msgHas] at h3
    simp [gitlabMapError, h1, h2.1, h2.2, h3]
  · intro e op h1 h2 h3
    simp only [msgHas, Bool.or_eq_false_iff] at h2
    simp only [msgHas] at h3
    simp [azureMapError, h1, h2.1, h2.2, h3]
  · intro e op h
    simp [githubMapError, h]
  · intro name e h1 h2
    simp only [msgHas] at h2
    simp [gitlabGetBranchCatch, h1, h2]
  · intro number e h
    simp [githubGetPullRequestCatch, h]
  · intro be repo project input refs hproj hne hapi hs hrefs hoid
    simp [azureCreateBranch, runTry, stepBind, stepCall, stepPure, stepThrow,
      getProjectT, getProject, azureCreateBranchCatch, hproj, hne, hapi, hs, hrefs,
      hoid]
  · intro be repoName project branch hrefs
    simp [azureGetLatestRef, runTry, stepBind, stepCall, stepPure, stepThrow, hrefs]

/-- C10 witness: a concrete 404-class rejection during a listing operation
still reports resource "repository" and identifier "unknown", while a
concrete failed ref resolution inside Azure `createBranch` reports the
branch tag with the unresolved name. -/
theorem C10_witness :
    gitlabMapError thrown404Numeric "listPullRequests" =
      ForgeError.notFoundError Provider.gitlab Resource.repository "unknown" ∧
    (azureCreateBranch azureBeEmpty wRepoAzure { name := "b", fromRef := "develop" }).1 =
      Except.error (ForgeError.notFoundError Provider.azureDevops Resource.branch
        "develop") := by
  constructor
  · exact C10_generic_notfound_is_repository_unknown.1 thrown404Numeric
      "listPullRequests" rfl (by decide) (by decide)
  · exact C10_generic_notfound_is_repository_unknown.2.2.2.2.2.1 azureBeEmpty
      wRepoAzure "Proj" { name := "b", fromRef := "develop" } [] rfl (by decide) rfl
      (by decide) rfl rfl

/-- C2 counterexample: a 404-class rejection on GitLab `getBranch` whose
message signals 404 only numerically (no "not found" text) — 404-class by
the spec's own §4.1 rule — escapes the inline check and is mapped by the
generic `mapError` to `NotFoundError(resource="repository",
identifier="unknown")` instead of the claimed
`NotFoundError(resource="branch", identifier=<requested name>)`. -/
theorem C2_counterexample :
    (gitlabGetBranch gitlabBe404 wRepoGitLab "dev").1 =
      Except.error (ForgeError.notFoundError Provider.gitlab Resource.repository "unknown") ∧
    msgHas thrown404Numeric "404" = true ∧
    msgHas thrown404Numeric "not found" = false ∧
    Resource.repository ≠ Resource.branch := by
  exact ⟨rfl, by decide, by decide, by decide⟩

/-- C2 amended: the 404-class signals each adapter actually inspects do
yield exactly the claimed `NotFoundError`: on GitHub a rejection with
status 404; on GitLab a rejected `Error` whose lowercased message contains
"not found"; on Azure DevOps an empty `getRefs` result for `getBranch` and a
missing pull request for `getPullRequest`. (Other 404-class failures — a
GitLab message signaling 404 only numerically, or a thrown 404-class error
on Azure — fall to the generic `mapError` and yield
`NotFoundError("repository", "unknown")` instead.) -/
theorem C2_amended_notfound_tagging :
    (∀ (be : GitHubBackend) (repo : Repository) (name : String) (e : Thrown),
      be.reposGetBranch repo.owner repo.repo name = Except.error e →
      statusOf e = some 404 →
      (githubGetBranch be repo name).1 =
        Except.error (ForgeError.notFoundError Provider.github Resource.branch name)) ∧
    (∀ (be : GitHubBackend) (repo : Repository) (number : Int) (e : Thrown),
      be.pullsGet repo.owner repo.repo number = Except.error e →
      statusOf e = some 404 →
      (githubGetPullRequest be repo number).1 =
        Except.error (ForgeError.notFoundError Provider.github Resource.pullRequest
          (toString number))) ∧
    (∀ (be : GitLabBackend) (repo : Repository) (name : String) (e : Thrown),
      be.branchesShow (getProjectId repo.owner repo.repo) name = Except.error e →
      instanceOfError e = true →
      msgHas e "not found" = true →
      (gitlabGetBranch be repo name).1 =
        Except.error (ForgeError.notFoundError Provider.gitlab Resource.branch name)) ∧
    (∀ (be : GitLabBackend) (repo : Repository) (number : Int) (e : Thrown),
      be.mergeRequestsShow (getProjectId repo.owner repo.repo) number = Except.error e →
      instanceOfError e = true →
      msgHas e "not found" = true →
      (gitlabGetPullRequest be repo number).1 =
        Except.error (ForgeError.notFoundError Provider.gitlab Resource.pullRequest
          (toString number))) ∧
    (∀ (be : AzureBackend) (repo : Repository) (project name : String),
      repo.project = some project → (project == "") = false →
      be.getGitApi = Except.ok () →
      be.getRefs repo.repo project ("heads/" ++ name) = Except.ok [] →
      (azureGetBranch be repo name).1 =
        Except.error (ForgeError.notFoundError Provider.azureDevops Resource.branch name)) ∧
    (∀ (be : AzureBackend) (orgUrl : String) (repo : Repository) (project : String)
        (number : Int) (now : DateTime),
      repo.project = some project → (project == "") = false →
      be.getGitApi = Except.ok () →
      be.getPullRequest repo.repo number project = Except.ok none →
      (azureGetPullRequest be orgUrl repo number now).1 =
        Except.error (ForgeError.notFoundError Provider.azureDevops Resource.pullRequest
          (toString number))) := by
  refine ⟨?_, ?_, ?_, ?_, ?_, ?_⟩
  · intro be repo name e hb h404
    simp [githubGetBranch, runTry, stepBind, stepPar, stepCall, stepPure,
      githubGetBranchCatch, hb, h404]
  · intro be repo number e hb h404
    simp [githubGetPullRequest, runTry, stepBind, stepCall, stepPure,
      githubGetPullRequestCatch, hb, h404]
  · intro be repo name e hb hi hm
    simp only [msgHas] at hm
    simp [gitlabGetBranch, runTry, stepBind, stepPar, stepCall, stepPure,
      gitlabGetBranchCatch, hb, hi, hm]
  · intro be repo number e hb hi hm
    simp only [msgHas] at hm
    simp [gitlabGetPullRequest, runTry, stepBind, stepCall, stepPure,
      gitlabGetPullRequestCatch, hb, hi, hm]
  · intro be repo project name hproj hne hapi hrefs
    simp [azureGetBranch, runTry, stepBind, stepCall, stepPure, stepThrow,
      getProjectT, getProject, azureGetBranchCatch, hproj, hne, hapi, hrefs]
  · intro be orgUrl repo project number now hproj hne hapi hpr
    simp [azureGetPullRequest, runTry, stepBind, stepCall, stepPure, stepThrow,
      getProjectT, getProject, azureGetPullRequestCatch, hproj, hne, hapi, hpr]

/-- C2 witness: a GitLab branch lookup rejected with a "not found" message
yields the branch-tagged error with the requested name. -/
theorem C2_witness :
    (gitlabGetBranch gitlabBeNotFound wRepoGitLab "dev").1 =
      Except.error (ForgeError.notFoundError Provider.gitlab Resource.branch "dev") := by
  exact C2_amended_notfound_tagging.2.2.1 gitlabBeNotFound wRepoGitLab "dev"
    thrownNotFoundText rfl rfl (by decide)

/-- C3 counterexample: a 403-class failure ("403 Forbidden", status 403).
The status-based GitHub `mapError` classifies it as authentication, but the
message-based GitLab and Azure DevOps `mapError`s match only "401" or
"unauthorized" and fall through to the catch-all `GitForgeError`, refuting
the claim that a 403-class failure maps to `AuthenticationError` on every
adapter. -/
theorem C3_counterexample :
    gitlabMapError thrownForbidden "listBranches" =
      ForgeError.gitForgeError Provider.gitlab "listBranches" "403 Forbidden" thrownForbidden ∧
    azureMapError thrownForbidden "listBranches" =
      ForgeError.gitForgeError Provider.azureDevops "listBranches" "403 Forbidden" thrownForbidden ∧
    gitlabMapError thrownForbidden "listBranches" ≠
      ForgeError.authenticationError Provider.gitlab "403 Forbidden" ∧
    githubMapError thrownForbidden "listBranches" =
      ForgeError.authenticationError Provider.github "403 Forbidden" := by
  refine ⟨rfl, rfl, ?_, rfl⟩
  have h0 : gitlabMapError thrownForbidden "listBranches" =
      ForgeError.gitForgeError Provider.gitlab "listBranches" "403 Forbidden" thrownForbidden := rfl
  rw [h0]
  intro h
  exact ForgeError.noConfusion h

/-- C3 amended: a 401-class failure maps to `AuthenticationError` on all
three adapters, and 403 does on GitHub, whose classification is status-based;
on GitLab and Azure DevOps, whose classification is message-based, only
messages containing "401" or "unauthorized" classify as authentication, so a
403-class failure without those markers is unclassified and maps to the
catch-all `GitForgeError`. A 429-class failure matching no earlier rule maps
to `RateLimitError`, and failures matching none of the rules map to the
catch-all carrying the name of the operation in flight. -/
theorem C3_amended_classification :
    (∀ (e : Thrown) (op : String), statusOf e = some 401 ∨ statusOf e = some 403 →
      githubMapError e op = ForgeError.authenticationError Provider.github (errMessage e)) ∧
    (∀ (e : Thrown) (op : String), statusOf e = some 429 →
      githubMapError e op =
        (match retryAfterHeaderOf e with
          | some h => ForgeError.rateLimitError Provider.github (some (jsParseInt h))
          | none => ForgeError.rateLimitError Provider.github none)) ∧
    (∀ (e : Thrown) (op : String), statusOf e = none →
      githubMapError e op = ForgeError.gitForgeError Provider.github op (thrownToMessage e) e) ∧
    (∀ (e : Thrown) (op : String) (st : Int), statusOf e = some st →
      (st == 401 || st == 403 || st == 404 || st == 422 || st == 429) = false →
      githubMapError e op = ForgeError.gitForgeError Provider.github op (thrownToMessage e) e) ∧
    (∀ (e : Thrown) (op : String), instanceOfError e = true →
      (msgHas e "401" || msgHas e "unauthorized") = true →
      gitlabMapError e op = ForgeError.authenticationError Provider.gitlab (errMessage e) ∧
      azureMapError e op = ForgeError.authenticationError Provider.azureDevops (errMessage e)) ∧
    (∀ (e : Thrown) (op : String), instanceOfError e = true →
      (msgHas e "401" || msgHas e "unauthorized") = false →
      (msgHas e "404" || msgHas e "not found") = false →
      (msgHas e "422" || msgHas e "invalid") = false →
      (msgHas e "400" || msgHas e "invalid") = false →
      (msgHas e "429" || msgHas e "rate limit") = true →
      gitlabMapError e op = ForgeError.rateLimitError Provider.gitlab none ∧
      azureMapError e op = ForgeError.rateLimitError Provider.azureDevops none) ∧
    (∀ (e : Thrown) (op : String), instanceOfError e = true →
      (msgHas e "401" || msgHas e "unauthorized") = false →
      (msgHas e "404" || msgHas e "not found") = false →
      (msgHas e "422" || msgHas e "invalid") = false →
      (msgHas e "400" || msgHas e "invalid") = false →
      (msgHas e "429" || msgHas e "rate limit") = false →
      gitlabMapError e op = ForgeError.gitForgeError Provider.gitlab op (thrownToMessage e) e ∧
      azureMapError e op = ForgeError.gitForgeError Provider.azureDevops op (thrownToMessage e) e) ∧
    (∀ (e : Thrown) (op : String), instanceOfError e = false →
      gitlabMapError e op = ForgeError.gitForgeError Provider.gitlab op (thrownToMessage e) e ∧
      azureMapError e op = ForgeError.gitForgeError Provider.azureDevops op (thrownToMessage e) e) := by
  refine ⟨?_, ?_, ?_, ?_, ?_, ?_, ?_, ?_⟩
  · intro e op h
    rcases h with h | h
    · simp [githubMapError, h]
    · simp [githubMapError, h]
  · intro e op h
    simp [githubMapError, h]
  · intro e op h
    simp [githubMapError, h]
  · intro e op st h hst
    simp only [Bool.or_eq_false_iff] at hst
    obtain ⟨⟨⟨⟨h1, h2⟩, h3⟩, h4⟩, h5⟩ := hst
    simp only [beq_eq_false_iff_ne, ne_eq] at h1 h2 h3 h4 h5
    simp [githubMapError, h, h1, h2, h3, h4, h5]
  · intro e op hi hm
    simp only [msgHas] at hm
    constructor
    · simp [gitlabMapError, hi, hm]
    · simp [azureMapError, hi, hm]
  · intro e op hi h1 h2 h3 h4 h5
    simp only [msgHas, Bool.or_eq_false_iff] at h1 h2 h3 h4
    simp only [msgHas] at h5
    constructor
    · simp [gitlabMapError, hi, h1.1, h1.2, h2.1, h2.2, h3.1, h3.2, h5]
    · simp [azureMapError, hi, h1.1, h1.2, h2.1, h2.2, h4.1, h4.2, h5]
  · intro e op hi h1 h2 h3 h4 h5
    simp only [msgHas, Bool.or_eq_false_iff] at h1 h2 h3 h4 h5
    constructor
    · simp [gitlabMapError, hi, h1.1, h1.2, h2.1, h2.2, h3.1, h3.2, h5.1, h5.2]
    · simp [azureMapError, hi, h1.1, h1.2, h2.1, h2.2, h4.1, h4.2, h5.1, h5.2]
  · intro e op hi
    constructor
    · simp [gitlabMapError, hi]
    · simp [azureMapError, hi]

/-- C3 witness: a 401-class rejection maps to `AuthenticationError` on all
three adapters, and an unclassified rejection maps to the catch-all carrying
the operation name. -/
theorem C3_witness :
    gitlabMapError thrownUnauthorized "getBranch" =
      ForgeError.authenticationError Provider.gitlab "401 Unauthorized" ∧
    azureMapError thrownUnauthorized "getBranch" =
      ForgeError.authenticationError Provider.azureDevops "401 Unauthorized" ∧
    githubMapError thrownUnauthorized "getBranch" =
      ForgeError.authenticationError Provider.github "401 Unauthorized" ∧
    gitlabMapError unusedThrown "commitFile" =
      ForgeError.gitForgeError Provider.gitlab "commitFile" "unused" unusedThrown := by
  refine ⟨?_, ?_, ?_, ?_⟩
  · exact (C3_amended_classification.2.2.2.2.1 thrownUnauthorized "getBranch" rfl (by decide)).1
  · exact (C3_amended_classification.2.2.2.2.1 thrownUnauthorized "getBranch" rfl (by decide)).2
  · exact C3_amended_classification.1 thrownUnauthorized "getBranch" (Or.inl rfl)
  · exact (C3_amended_classification.2.2.2.2.2.2.2 unusedThrown "commitFile" rfl).1

/-- C4 counterexample: a GitLab merge request whose native `draft` field is
explicitly false while its `work_in_progress` flag is set and its title
carries the "Draft: " prefix is read back with `draft = false` — refuting
the claim that either signal alone forces `draft = true`. -/
theorem C4_counterexample :
    (gitlabGetPullRequest gitlabBeDraft wRepoGitLab 3).1 =
      Except.ok (gitlabMapMr wMrDraftFalse) ∧
    wMrDraftFalse.work_in_progress = some true ∧
    (gitlabMapMr wMrDraftFalse).title = "Draft: add feature" ∧
    (gitlabMapMr wMrDraftFalse).draft = false := by
  exact ⟨rfl, rfl, rfl, rfl⟩

/-- C4 amended: `createPullRequest` with `draft: true` sends the backend a
title prefixed "Draft: " and returns the native response mapped by the
shared MR mapping; every pull request read back reports
`draft = native draft field when present, else the native work-in-progress
flag, else false` — the title prefix is never consulted on read, so a native
`draft: false` wins even when the work-in-progress flag is set or the title
carries the prefix. -/
theorem C4_amended_draft_handling :
    (∀ (be : GitLabBackend) (repo : Repository) (input : CreatePullRequestInput),
      input.draft = some true →
      (gitlabCreatePullRequest be repo input).2 =
        [GitLabCall.mergeRequestsCreate (getProjectId repo.owner repo.repo)
          input.sourceBranch input.targetBranch ("Draft: " ++ input.title)
          input.description]) ∧
    (∀ (be : GitLabBackend) (repo : Repository) (input : CreatePullRequestInput)
        (mr : GitLabMr),
      input.draft = some true →
      be.mergeRequestsCreate (getProjectId repo.owner repo.repo) input.sourceBranch
        input.targetBranch ("Draft: " ++ input.title) input.description = Except.ok mr →
      (gitlabCreatePullRequest be repo input).1 = Except.ok (gitlabMapMr mr)) ∧
    (∀ (mr : GitLabMr),
      (gitlabMapMr mr).draft = mr.draft.getD (mr.work_in_progress.getD false)) ∧
    (∀ (be : GitLabBackend) (repo : Repository) (number : Int) (mr : GitLabMr),
      be.mergeRequestsShow (getProjectId repo.owner repo.repo) number = Except.ok mr →
      (gitlabGetPullRequest be repo number).1 = Except.ok (gitlabMapMr mr)) ∧
    (∀ (be : GitLabBackend) (repo : Repository) (mrs : List GitLabMr),
      be.mergeRequestsAll (getProjectId repo.owner repo.repo) (some "opened") 30 =
        Except.ok mrs →
      (gitlabListPullRequests be repo none).1 = Except.ok (mrs.map gitlabMapMr)) := by
  refine ⟨?_, ?_, ?_, ?_, ?_⟩
  · intro be repo input hd
    rcases hc : be.mergeRequestsCreate (getProjectId repo.owner repo.repo)
        input.sourceBranch input.targetBranch ("Draft: " ++ input.title)
        input.description with e | mr
    · simp [gitlabCreatePullRequest, runTry, stepBind, stepCall, stepPure, hd, hc]
    · simp [gitlabCreatePullRequest, runTry, stepBind, stepCall, stepPure, hd, hc]
  · intro be repo input mr hd hc
    simp [gitlabCreatePullRequest, runTry, stepBind, stepCall, stepPure, hd, hc]
  · intro mr
    rfl
  · intro be repo number mr hc
    simp [gitlabGetPullRequest, runTry, stepBind, stepCall, stepPure, hc]
  · intro be repo mrs hc
    simp [gitlabListPullRequests, runTry, stepBind, stepCall, stepPure, hc]

/-- C4 witness: a draft creation sends the prefixed title and returns the
backend's draft flag; re-fetching another MR goes through the same mapping. -/
theorem C4_witness :
    ((gitlabCreatePullRequest gitlabBeDraft wRepoGitLab
      { title := "add feature", sourceBranch := "feature", targetBranch := "main",
        draft := some true }).2 =
      [GitLabCall.mergeRequestsCreate "acme/widgets" "feature" "main"
        "Draft: add feature" none]) ∧
    ((gitlabCreatePullRequest gitlabBeDraft wRepoGitLab
      { title := "add feature", sourceBranch := "feature", targetBranch := "main",
        draft := some true }).1 = Except.ok (gitlabMapMr wMrDraftTrue)) ∧
    (gitlabMapMr wMrDraftTrue).draft = true := by
  refine ⟨?_, ?_, rfl⟩
  · exact C4_amended_draft_handling.1 gitlabBeDraft wRepoGitLab
      { title := "add feature", sourceBranch := "feature", targetBranch := "main",
        draft := some true } rfl
  · exact C4_amended_draft_handling.2.1 gitlabBeDraft wRepoGitLab
      { title := "add feature", sourceBranch := "feature", targetBranch := "main",
        draft := some true } wMrDraftTrue rfl rfl

/-- C5 counterexample: the Azure DevOps `listBranches` issues its ref listing
with no page-size argument, so a backend response of 101 refs comes back as
101 branches — refuting the claim that every adapter bounds the result to a
single page of at most 100 items. -/
theorem C5_counterexample :
    (azureListBranches azureBe101 wRepoAzure).1 =
      Except.ok (List.replicate 101 wAzureBranch) ∧
    100 < (List.replicate 101 wAzureBranch).length := by
  constructor
  · rfl
  · simp

/-- C5 amended: GitLab and GitHub `listBranches` issue exactly one listing
call requesting a single page of 100 items and return the backend's page in
native order with no cursoring; Azure DevOps issues a single
`getRefs("heads/")` call with no page-size argument and returns every ref the
backend reports, in native order, with no 100-item bound. -/
theorem C5_amended_listBranches_paging :
    (∀ (be : GitLabBackend) (repo : Repository) (branches : List GitLabBranch)
        (project : GitLabProject),
      be.branchesAll (getProjectId repo.owner repo.repo) 100 = Except.ok branches →
      be.projectsShow (getProjectId repo.owner repo.repo) = Except.ok project →
      gitlabListBranches be repo =
        (Except.ok (branches.map fun b =>
          { name := b.name
            sha := b.commit.id
            isDefault := project.default_branch == some b.name
            protectedFlag := b.protectedFlag }),
         [GitLabCall.branchesAll (getProjectId repo.owner repo.repo) 100,
          GitLabCall.projectsShow (getProjectId repo.owner repo.repo)])) ∧
    (∀ (be : GitHubBackend) (repo : Repository) (branches : List GitHubBranchData)
        (repoData : GitHubRepoData),
      be.reposListBranches repo.owner repo.repo 100 = Except.ok branches →
      be.reposGet repo.owner repo.repo = Except.ok repoData →
      githubListBranches be repo =
        (Except.ok (branches.map fun b =>
          { name := b.name
            sha := b.commit.sha
            isDefault := repoData.default_branch == b.name
            protectedFlag := b.protectedFlag }),
         [GitHubCall.reposListBranches repo.owner repo.repo 100,
          GitHubCall.reposGet repo.owner repo.repo])) ∧
    (∀ (be : AzureBackend) (repo : Repository) (project : String)
        (refs : List AzureGitRef) (repoInfo : AzureRepoInfo),
      repo.project = some project → (project == "") = false →
      be.getGitApi = Except.ok () →
      be.getRefs repo.repo project "heads/" = Except.ok refs →
      be.getRepository repo.repo project = Except.ok repoInfo →
      azureListBranches be repo =
        (Except.ok (refs.map fun ref =>
          { name := extractBranchName ref.name
            sha := ref.objectId.getD ""
            isDefault := extractBranchName ref.name == extractBranchName repoInfo.defaultBranch
            protectedFlag := ref.isLocked.getD false }),
         [AzureCall.getGitApi,
          AzureCall.getRefs repo.repo project "heads/",
          AzureCall.getRepository repo.repo project])) := by
  refine ⟨?_, ?_, ?_⟩
  · intro be repo branches project hb hp
    simp [gitlabListBranches, runTry, stepBind, stepPar, stepCall, stepPure, hb, hp]
  · intro be repo branches repoData hb hp
    simp [githubListBranches, runTry, stepBind, stepPar, stepCall, stepPure, hb, hp]
  · intro be repo project refs repoInfo hproj hne hapi hrefs hrepo
    simp [azureListBranches, runTry, stepBind, stepPar, stepCall, stepPure,
      getProjectT, getProject, hproj, hne, hapi, hrefs, hrepo]

/-- C5 witness: a concrete two-branch GitLab listing returns both entries in
native order from a single 100-item page request. -/
theorem C5_witness :
    gitlabListBranches gitlabBeList wRepoGitLab =
      (Except.ok (wGlBranches.map fun b =>
        { name := b.name
          sha := b.commit.id
          isDefault := (some "main" : Option String) == some b.name
          protectedFlag := b.protectedFlag }),
       [GitLabCall.branchesAll "acme/widgets" 100,
        GitLabCall.projectsShow "acme/widgets"]) := by
  exact C5_amended_listBranches_paging.1 gitlabBeList wRepoGitLab wGlBranches
    { default_branch := some "main" } rfl rfl

/-- C6 counterexample: the GitLab adapter performs no 40-hex pattern match
and no client-side resolution — `createBranch` passes a 40-hex `fromRef`
straight to the backend's creation call, and the returned sha is whatever
commit id the backend reports, which here differs from the given 40-hex
source commit. -/
theorem C6_counterexample :
    isSha40 wSha40 = true ∧
    gitlabCreateBranch gitlabBeCreate wRepoGitLab { name := "b", fromRef := wSha40 } =
      (Except.ok { name := "b", sha := "f1e2d3", isDefault := false, protectedFlag := false },
       [GitLabCall.branchesCreate "acme/widgets" "b" wSha40,
        GitLabCall.projectsShow "acme/widgets"]) ∧
    "f1e2d3" ≠ wSha40 := by
  exact ⟨by decide, rfl, by decide⟩

/-- C6 amended: on the GitHub and Azure DevOps adapters a 40-hex `fromRef`
is detected by pattern match and used directly as the source commit with no
resolution lookup, while any other `fromRef` is first resolved to its tip
(Azure failing `NotFoundError(branch, fromRef)` when the lookup yields no
object id; GitHub mapping the lookup's rejection through `mapError`); in
both cases the returned branch's sha equals the resolved source commit. The
GitLab adapter performs no pattern match and no client-side resolution: it
passes `fromRef` directly to the backend's branch-creation call for either
form and returns the sha from the backend's response. -/
theorem C6_amended_fromRef_resolution :
    (∀ (be : GitHubBackend) (repo : Repository) (input : CreateBranchInput)
        (rd : GitHubRepoData),
      isSha40 input.fromRef = true →
      be.gitCreateRef repo.owner repo.repo ("refs/heads/" ++ input.name) input.fromRef =
        Except.ok () →
      be.reposGet repo.owner repo.repo = Except.ok rd →
      githubCreateBranch be repo input =
        (Except.ok { name := input.name, sha := input.fromRef,
                     isDefault := rd.default_branch == input.name, protectedFlag := false },
         [GitHubCall.gitCreateRef repo.owner repo.repo ("refs/heads/" ++ input.name)
            input.fromRef,
          GitHubCall.reposGet repo.owner repo.repo])) ∧
    (∀ (be : GitHubBackend) (repo : Repository) (input : CreateBranchInput)
        (ref : GitHubRef) (rd : GitHubRepoData),
      isSha40 input.fromRef = false →
      be.gitGetRef repo.owner repo.repo ("heads/" ++ input.fromRef) = Except.ok ref →
      be.gitCreateRef repo.owner repo.repo ("refs/heads/" ++ input.name) ref.object.sha =
        Except.ok () →
      be.reposGet repo.owner repo.repo = Except.ok rd →
      githubCreateBranch be repo input =
        (Except.ok { name := input.name, sha := ref.object.sha,
                     isDefault := rd.default_branch == input.name, protectedFlag := false },
         [GitHubCall.gitGetRef repo.owner repo.repo ("heads/" ++ input.fromRef),
          GitHubCall.gitCreateRef repo.owner repo.repo ("refs/heads/" ++ input.name)
            ref.object.sha,
          GitHubCall.reposGet repo.owner repo.repo])) ∧
    (∀ (be : AzureBackend) (repo : Repository) (project : String)
        (input : CreateBranchInput) (results : List AzureRefUpdateResult)
        (repoInfo : AzureRepoInfo),
      repo.project = some project → (project == "") = false →
      be.getGitApi = Except.ok () →
      isSha40 input.fromRef = true →
      be.updateRefs
        [{ name := "refs/heads/" ++ input.name,
           oldObjectId := "0000000000000000000000000000000000000000",
           newObjectId := input.fromRef }] repo.repo project = Except.ok results →
      ((results.head?.bind fun r => r.success).getD false) = true →
      be.getRepository repo.repo project = Except.ok repoInfo →
      azureCreateBranch be repo input =
        (Except.ok { name := input.name, sha := input.fromRef,
                     isDefault := extractBranchName repoInfo.defaultBranch == input.name,
                     protectedFlag := false },
         [AzureCall.getGitApi,
          AzureCall.updateRefs
            [{ name := "refs/heads/" ++ input.name,
               oldObjectId := "0000000000000000000000000000000000000000",
               newObjectId := input.fromRef }] repo.repo project,
          AzureCall.getRepository repo.repo project])) ∧
    (∀ (be : AzureBackend) (repo : Repository) (project : String)
        (input : CreateBranchInput) (refs : List AzureGitRef) (oid : String)
        (results : List AzureRefUpdateResult) (repoInfo : AzureRepoInfo),
      repo.project = some project → (project == "") = false →
      be.getGitApi = Except.ok () →
      isSha40 input.fromRef = false →
      be.getRefs repo.repo project ("heads/" ++ input.fromRef) = Except.ok refs →
      (refs.head?.bind fun r => r.objectId) = some oid →
      (oid == "") = false →
      be.updateRefs
        [{ name := "refs/heads/" ++ input.name,
           oldObjectId := "0000000000000000000000000000000000000000",
           newObjectId := oid }] repo.repo project = Except.ok results →
      ((results.head?.bind fun r => r.success).getD false) = true →
      be.getRepository repo.repo project = Except.ok repoInfo →
      azureCreateBranch be repo input =
        (Except.ok { name := input.name, sha := oid,
                     isDefault := extractBranchName repoInfo.defaultBranch == input.name,
                     protectedFlag := false },
         [AzureCall.getGitApi,
          AzureCall.getRefs repo.repo project ("heads/" ++ input.fromRef),
          AzureCall.updateRefs
            [{ name := "refs/heads/" ++ input.name,
               oldObjectId := "0000000000000000000000000000000000000000",
               newObjectId := oid }] repo.repo project,
          AzureCall.getRepository repo.repo project])) ∧
    (∀ (be : AzureBackend) (repo : Repository) (project : String)
        (input : CreateBranchInput) (refs : List AzureGitRef),
      repo.project = some project → (project == "") = false →
      be.getGitApi = Except.ok () →
      isSha40 input.fromRef = false →
      be.getRefs repo.repo project ("heads/" ++ input.fromRef) = Except.ok refs →
      (refs.head?.bind fun r => r.objectId) = none →
      azureCreateBranch be repo input =
        (Except.error (ForgeError.notFoundError Provider.azureDevops Resource.branch
            input.fromRef),
         [AzureCall.getGitApi,
          AzureCall.getRefs repo.repo project ("heads/" ++ input.fromRef)])) ∧
    (∀ (be : GitLabBackend) (repo : Repository) (input : CreateBranchInput)
        (branch : GitLabBranch) (project : GitLabProject),
      be.branchesCreate (getProjectId repo.owner repo.repo) input.name input.fromRef =
        Except.ok branch →
      be.projectsShow (getProjectId repo.owner repo.repo) = Except.ok project →
      gitlabCreateBranch be repo input =
        (Except.ok { name := branch.name, sha := branch.commit.id,
                     isDefault := project.default_branch == some branch.name,
                     protectedFlag := branch.protectedFlag },
         [GitLabCall.branchesCreate (getProjectId repo.owner repo.repo) input.name
            input.fromRef,
          GitLabCall.projectsShow (getProjectId repo.owner repo.repo)])) := by
  refine ⟨?_, ?_, ?_, ?_, ?_, ?_⟩
  · intro be repo input rd hs hc hr
    simp [githubCreateBranch, runTry, stepBind, stepCall, stepPure, hs, hc, hr]
  · intro be repo input ref rd hs hg hc hr
    simp [githubCreateBranch, runTry, stepBind, stepCall, stepPure, hs, hg, hc, hr]
  · intro be repo project input results repoInfo hproj hne hapi hs hupd hsucc hrepo
    simp [azureCreateBranch, runTry, stepBind, stepCall, stepPure, stepThrow,
      getProjectT, getProject, azureCreateBranchCatch, hproj, hne, hapi, hs, hupd,
      hsucc, hrepo]
  · intro be repo project input refs oid results repoInfo hproj hne hapi hs hrefs hoid
      hne2 hupd hsucc hrepo
    simp [azureCreateBranch, runTry, stepBind, stepCall, stepPure, stepThrow,
      getProjectT, getProject, azureCreateBranchCatch, hproj, hne, hapi, hs, hrefs,
      hoid, hne2, hupd, hsucc, hrepo]
  · intro be repo project input refs hproj hne hapi hs hrefs hoid
    simp [azureCreateBranch, runTry, stepBind, stepCall, stepPure, stepThrow,
      getProjectT, getProject, azureCreateBranchCatch, hproj, hne, hapi, hs, hrefs,
      hoid]
  · intro be repo input branch project hc hp
    simp [gitlabCreateBranch, runTry, stepBind, stepCall, stepPure, hc, hp]

/-- C6 witness: a concrete 40-hex creation on GitHub issues no resolution
lookup and returns the given commit as the sha. -/
theorem C6_witness :
    githubCreateBranch githubBeOk wRepoGitHub { name := "feature", fromRef := wSha40 } =
      (Except.ok { name := "feature", sha := wSha40, isDefault := false,
                   protectedFlag := false },
       [GitHubCall.gitCreateRef "acme" "widgets" "refs/heads/feature" wSha40,
        GitHubCall.reposGet "acme" "widgets"]) := by
  exact C6_amended_fromRef_resolution.1 githubBeOk wRepoGitHub
    { name := "feature", fromRef := wSha40 } { default_branch := "main" }
    (by decide) rfl rfl

/-- C7: Azure DevOps `listPullRequests` with state "closed" requests the
backend's unfiltered set (native status 4) and locally filters it to exactly
the pull requests whose native status is 2 (abandoned) or 3 (completed),
excluding every pull request with status 1 (active). -/
theorem C7_azure_closed_filters_status_2_3 :
    ∀ (be : AzureBackend) (orgUrl : String) (repo : Repository) (project : String)
      (options : Option ListPullRequestsOptions) (prs : List AzureGitPullRequest)
      (now : DateTime),
    repo.project = some project → (project == "") = false →
    options.bind (fun o => o.state) = some "closed" →
    be.getGitApi = Except.ok () →
    be.getPullRequests repo.repo { repositoryId := repo.repo, status := 4 } project
      ((options.bind (fun o => o.limit)).getD 30) = Except.ok prs →
    azureListPullRequests be orgUrl repo options now =
      (Except.ok ((prs.filter fun pr => pr.status == some 2 || pr.status == some 3).map
        fun pr => mapPullRequest pr orgUrl now),
       [AzureCall.getGitApi,
        AzureCall.getPullRequests repo.repo { repositoryId := repo.repo, status := 4 }
          project ((options.bind (fun o => o.limit)).getD 30)]) := by
  intro be orgUrl repo project options prs now hproj hne hstate hapi hprs
  have hAll : ((some "closed" : Option String) == some "all") = false := by decide
  have hClosed : ((some "closed" : Option String) == some "closed") = true := by decide
  simp [azureListPullRequests, runTry, stepBind, stepCall, stepPure,
    getProjectT, getProject, hproj, hne, hstate, hAll, hClosed, hapi, hprs]

/-- C7 witness: on a fixture set containing one pull request of each native
status (1, 2, 3), the "closed" listing keeps exactly the status-2 and
status-3 entries. -/
theorem C7_witness :
    azureListPullRequests azureBePrs "https://dev.azure.com/acme" wRepoAzure
      (some { state := some "closed" }) wNow =
      (Except.ok (([mkAzurePr 1 1, mkAzurePr 2 2, mkAzurePr 3 3].filter
          fun pr => pr.status == some 2 || pr.status == some 3).map
        fun pr => mapPullRequest pr "https://dev.azure.com/acme" wNow),
       [AzureCall.getGitApi,
        AzureCall.getPullRequests "widgets" { repositoryId := "widgets", status := 4 }
          "Proj" 30]) ∧
    ([mkAzurePr 1 1, mkAzurePr 2 2, mkAzurePr 3 3].filter
        fun pr => pr.status == some 2 || pr.status == some 3) =
      [mkAzurePr 2 2, mkAzurePr 3 3] := by
  constructor
  · exact C7_azure_closed_filters_status_2_3 azureBePrs "https://dev.azure.com/acme"
      wRepoAzure "Proj" (some { state := some "closed" })
      [mkAzurePr 1 1, mkAzurePr 2 2, mkAzurePr 3 3] wNow rfl (by decide) rfl rfl rfl
  · decide

end GitForge
